import Mathlib

/-!
Shallow embedding of the plugin-engine orchestration layer of
`src/ambiance/src/ambiance/integrations/carla_host.py` (class `CarlaBackend`),
together with proofs of the specification claims about it.

Conventions used throughout the embedding:
* Python `dict`s (insertion ordered) are modelled as association lists with
  in-place update (`dictSet`) and removal (`dictPop`).
* Python `set`s of connection keys are modelled as duplicate-free lists with
  `setAdd` / `setDiscard`; the only iteration the source performs over a raw
  set is an order-insensitive `any(...)`.
* Python strings are modelled by `String`, but all computations on them
  (lowercasing, substring test, `int(...)` parsing, `split(":")`) are done on
  the underlying character list by structural recursion, so that they reduce
  inside the kernel.
* Python floats are modelled by `ℚ`; `float(x)` applied to a number that is
  already a float is the identity, which is what every call site here does.
* Calls into the native Carla host object are modelled by oracle records: for
  every call site the oracle supplies the outcome (`ok v`, or `err` for a
  raised exception).  A Python `try`/`except` around a call is translated as a
  `match` on that outcome; a call that the source does not guard is translated
  by propagating `err` into the `Except` result of the modelled operation.
-/

namespace AmbianceCarla

/-- Outcome of one call into the native host: a returned value or a raised
exception. -/
inductive CallResult (α : Type) where
  | ok (val : α)
  | err
deriving DecidableEq, Repr

/-- Structured stand-ins for the exception classes raised by the backend.
`carlaHost` models `CarlaHostError`; payloads keep the diagnostic data that
the source interpolates into the message string. -/
inductive ErrMsg where
  | backendNotAvailable
  | noDrivers
  | driverNotAvailable (forced : String) (detected : List String)
  | engineInitFailed
  | unsupportedFormat
  | unsupportedType
  | loadFailed
  | noPluginHosted
  | notAcceptMidi
  | unknownParameter (identifier : String)
deriving DecidableEq, Repr

/-- Exceptions: `CarlaHostError` (a `RuntimeError` subclass), `FileNotFoundError`,
and any other exception class. -/
inductive PyError where
  | carlaHost (msg : ErrMsg)
  | fileNotFound
  | other
deriving DecidableEq, Repr

instance {ε α : Type} [DecidableEq ε] [DecidableEq α] : DecidableEq (Except ε α) :=
  fun a b =>
    match a, b with
    | .error e₁, .error e₂ =>
      if h : e₁ = e₂ then isTrue (by rw [h])
      else isFalse (fun hc => h (Except.error.inj hc))
    | .error _, .ok _ => isFalse (fun hc => Except.noConfusion hc)
    | .ok _, .error _ => isFalse (fun hc => Except.noConfusion hc)
    | .ok v₁, .ok v₂ =>
      if h : v₁ = v₂ then isTrue (by rw [h])
      else isFalse (fun hc => h (Except.ok.inj hc))

/-- Structured stand-ins for the strings appended to `self.warnings`. -/
inductive Warning where
  | refreshFailed
  | midiConnectFailed (srcGroup srcPort dstGroup dstPort : Int)
  | midiNoSource
  | audioConnectFailed (srcPort dstGroup dstPort : Int)
  | audioNoTarget
  | audioMuted
  | clearBeforeLoadFailed
  | activateFailed
  | removeAllFailed
  | removePluginFailed (pluginId : Int)
  | unloadReported (message : String)
deriving DecidableEq, Repr

section DictHelpers

variable {κ : Type} {α : Type} [DecidableEq κ]

/-- Lookup in an insertion-ordered dict (`d.get(k)`). -/
def dictGet (k : κ) : List (κ × α) → Option α
  | [] => none
  | (k₁, v) :: rest => if k₁ = k then some v else dictGet k rest

/-- Assignment `d[k] = v`: overwrite in place if the key exists, else append. -/
def dictSet (k : κ) (v : α) : List (κ × α) → List (κ × α)
  | [] => [(k, v)]
  | (k₁, v₁) :: rest => if k₁ = k then (k, v) :: rest else (k₁, v₁) :: dictSet k v rest

/-- Removal `d.pop(k, None)`. -/
def dictPop (k : κ) : List (κ × α) → List (κ × α)
  | [] => []
  | (k₁, v₁) :: rest => if k₁ = k then rest else (k₁, v₁) :: dictPop k rest

/-- Membership `k in d`. -/
def dictMem (k : κ) (d : List (κ × α)) : Bool := (dictGet k d).isSome

end DictHelpers

section SetHelpers

variable {α : Type} [DecidableEq α]

/-- Set insertion `s.add(x)` on a duplicate-free list model of a `set`. -/
def setAdd (x : α) (s : List α) : List α := if x ∈ s then s else s ++ [x]

/-- Set removal `s.discard(x)`. -/
def setDiscard (x : α) (s : List α) : List α := s.filter (fun y => y ≠ x)

end SetHelpers

section StrHelpers

/-- ASCII lowercasing of one character, as `str.lower` does for the names that
occur here. -/
def lowerChar (c : Char) : Char :=
  if 65 ≤ c.toNat ∧ c.toNat ≤ 90 then Char.ofNat (c.toNat + 32) else c

/-- Character-list form of `s.lower()`. -/
def lowerStr (s : String) : List Char := s.data.map lowerChar

/-- Substring test `needle in hay` on character lists (Python `in` on `str`). -/
def infixOf (needle hay : List Char) : Bool :=
  match hay with
  | [] => needle.isEmpty
  | _ :: t => needle.isPrefixOf hay || infixOf needle t

/-- Substring test between strings, both lowercased first, matching the
`token in name.lower()` idiom of the scoring helpers. -/
def strHas (hay token : String) : Bool := infixOf (lowerStr token) (lowerStr hay)

/-- Case-insensitive equality of two driver names (`a.lower() == b.lower()`). -/
def eqCI (a b : String) : Bool := lowerStr a = lowerStr b

/-- Parse a non-negative decimal numeral, the shape of every payload piece that
`int(piece)` receives from patchbay connection callbacks; anything else is a
`ValueError`, modelled as `none`. -/
def parseNat? (cs : List Char) : Option Int :=
  match cs with
  | [] => none
  | _ =>
    cs.foldl
      (fun acc c =>
        match acc with
        | none => none
        | some n => if c.isDigit then some (n * 10 + ((c.toNat - 48 : Nat) : Int)) else none)
      (some 0)

/-- Split a character list on `:` (Python `payload.split(":")`). -/
def splitColon (s : List Char) : List (List Char) :=
  match s with
  | [] => [[]]
  | c :: rest =>
    let r := splitColon rest
    if c = ':' then [] :: r
    else
      match r with
      | [] => [[c]]
      | h :: t => (c :: h) :: t

/-- Model of `int(identifier)` as used by `_resolve_parameter_identifier` on a
string identifier: an optional sign followed by digits. -/
def parseInt? (s : String) : Option Int :=
  match s.data with
  | '-' :: rest => (parseNat? rest).map (fun n => -n)
  | '+' :: rest => parseNat? rest
  | cs => parseNat? cs

end StrHelpers

/-- Entry of `self._patch_clients`: `{"name": ..., "icon": ..., "plugin_id": ...}`.
`pluginId` is `-1` when the client is not a hosted plugin. -/
structure ClientInfo where
  name : String
  icon : Int
  pluginId : Int
deriving DecidableEq, Repr

/-- Entry of `self._patch_ports[client_id]`: the info dict built by
`_handle_patchbay_port_added`. -/
structure PortInfo where
  name : String
  hints : Nat
  groupId : Int
  isInput : Bool
  isAudio : Bool
  isMidi : Bool
deriving DecidableEq, Repr

/-- Connection key: the 4-tuple `(source group, source port, target group,
target port)` stored in `self._patch_connections`. -/
structure ConnKey where
  srcGroup : Int
  srcPort : Int
  dstGroup : Int
  dstPort : Int
deriving DecidableEq, Repr

/-- The patchbay graph cache: the five containers guarded by `self._patch_lock`. -/
structure PatchState where
  clients : List (Int × ClientInfo)
  ports : List (Int × List (Int × PortInfo))
  connections : List ConnKey
  connectionIds : List (Int × ConnKey)
  pluginGroups : List (Int × Int)
deriving DecidableEq, Repr

/-- The empty cache, as after `__init__` or a full clear. -/
def PatchState.empty : PatchState := ⟨[], [], [], [], []⟩

/-- Mask constants `self._patch_port_is_input` / `..._type_audio` / `..._type_midi`
resolved from the Carla module at backend construction. -/
structure PortMasks where
  isInput : Nat
  typeAudio : Nat
  typeMidi : Nat
deriving DecidableEq, Repr

/-- Patchbay lifecycle events as decoded by `_handle_engine_callback`. -/
inductive PatchEvent where
  | clientAdded (clientId : Int) (icon : Int) (pluginId : Int) (name : String)
  | clientRemoved (clientId : Int)
  | clientRenamed (clientId : Int) (name : String)
  | clientChanged (clientId : Int) (icon : Int) (pluginId : Int)
  | portAdded (clientId portId : Int) (hints : Nat) (groupId : Int) (name : String)
  | portRemoved (clientId portId : Int)
  | connectionAdded (connectionId : Int) (payload : String)
  | connectionRemoved (connectionId : Int)
deriving DecidableEq, Repr

/-- Loop body of the cascade in `_handle_patchbay_client_removed` and
`_handle_patchbay_port_removed`:
`for connection_id, key in list(self._patch_connection_ids.items()):` popping
every entry whose key satisfies `cond` and discarding its key from
`self._patch_connections`. -/
def purgeConnections (cond : ConnKey → Bool) :
    List (Int × ConnKey) → PatchState → PatchState
  | [], st => st
  | (cid, key) :: rest, st =>
    if cond key then
      purgeConnections cond rest
        { st with
          connectionIds := dictPop cid st.connectionIds,
          connections := setDiscard key st.connections }
    else purgeConnections cond rest st

/-- `_handle_patchbay_client_added`. -/
def handleClientAdded (clientId icon pluginId : Int) (name : String)
    (st : PatchState) : PatchState :=
  let st := { st with clients := dictSet clientId ⟨name, icon, pluginId⟩ st.clients }
  if 0 ≤ pluginId then
    { st with pluginGroups := dictSet pluginId clientId st.pluginGroups }
  else st

/-- `_handle_patchbay_client_removed`: drop the client, its port dict, any
plugin-group entry pointing at it, and cascade over the tracked connections. -/
def handleClientRemoved (clientId : Int) (st : PatchState) : PatchState :=
  let st :=
    { st with
      clients := dictPop clientId st.clients,
      ports := dictPop clientId st.ports,
      pluginGroups := st.pluginGroups.filter (fun e => e.2 ≠ clientId) }
  purgeConnections (fun k => k.srcGroup = clientId ∨ k.dstGroup = clientId)
    st.connectionIds st

/-- `_handle_patchbay_client_renamed`. -/
def handleClientRenamed (clientId : Int) (name : String) (st : PatchState) : PatchState :=
  match dictGet clientId st.clients with
  | none => { st with clients := dictSet clientId ⟨name, 0, -1⟩ st.clients }
  | some c =>
    { st with clients := dictSet clientId { c with name := if name = "" then c.name else name } st.clients }

/-- `_handle_patchbay_client_changed`. -/
def handleClientChanged (clientId icon pluginId : Int) (st : PatchState) : PatchState :=
  let st :=
    match dictGet clientId st.clients with
    | none => { st with clients := dictSet clientId ⟨"", icon, pluginId⟩ st.clients }
    | some c =>
      { st with clients := dictSet clientId { c with icon := icon, pluginId := pluginId } st.clients }
  if 0 ≤ pluginId then
    { st with pluginGroups := dictSet pluginId clientId st.pluginGroups }
  else
    { st with pluginGroups := st.pluginGroups.filter (fun e => e.2 ≠ clientId) }

/-- `_handle_patchbay_port_added` (also reused for port-changed events): the
direction/kind booleans are decoded from the hint bits. -/
def handlePortAdded (masks : PortMasks) (clientId portId : Int) (hints : Nat)
    (groupId : Int) (name : String) (st : PatchState) : PatchState :=
  let info : PortInfo :=
    ⟨name, hints, groupId, (hints &&& masks.isInput) ≠ 0,
     (hints &&& masks.typeAudio) ≠ 0, (hints &&& masks.typeMidi) ≠ 0⟩
  let portDict := (dictGet clientId st.ports).getD []
  { st with ports := dictSet clientId (dictSet portId info portDict) st.ports }

/-- `_handle_patchbay_port_removed`: a no-op unless the port is known; removes
the port (and the whole per-client dict once empty) and cascades over the
tracked connections referencing this exact endpoint. -/
def handlePortRemoved (clientId portId : Int) (st : PatchState) : PatchState :=
  match dictGet clientId st.ports with
  | none => st
  | some portDict =>
    if portDict = [] then st
    else if dictMem portId portDict then
      let remaining := dictPop portId portDict
      let st :=
        { st with
          ports :=
            if remaining = [] then dictPop clientId st.ports
            else dictSet clientId remaining st.ports }
      purgeConnections
        (fun k => (k.srcGroup = clientId ∧ k.srcPort = portId) ∨
          (k.dstGroup = clientId ∧ k.dstPort = portId))
        st.connectionIds st
    else st

/-- `_handle_patchbay_connection_added`: parse the `"a:b:c:d"` payload; on any
parse failure the event is dropped. -/
def handleConnectionAdded (connectionId : Int) (payload : String) (st : PatchState) : PatchState :=
  let pieces := (splitColon payload.data).map (fun cs => parseInt? (String.mk cs))
  if pieces.any (fun p => p.isNone) then st
  else
    match pieces with
    | [some a, some b, some c, some d] =>
      { st with
        connections := setAdd ⟨a, b, c, d⟩ st.connections,
        connectionIds := dictSet connectionId ⟨a, b, c, d⟩ st.connectionIds }
    | _ => st

/-- `_handle_patchbay_connection_removed`. -/
def handleConnectionRemoved (connectionId : Int) (st : PatchState) : PatchState :=
  match dictGet connectionId st.connectionIds with
  | none => st
  | some key =>
    { st with
      connectionIds := dictPop connectionId st.connectionIds,
      connections := setDiscard key st.connections }

/-- Dispatch of `_handle_engine_callback` restricted to patchbay opcodes. -/
def applyEvent (masks : PortMasks) (st : PatchState) : PatchEvent → PatchState
  | .clientAdded c i p n => handleClientAdded c i p n st
  | .clientRemoved c => handleClientRemoved c st
  | .clientRenamed c n => handleClientRenamed c n st
  | .clientChanged c i p => handleClientChanged c i p st
  | .portAdded c pid h g n => handlePortAdded masks c pid h g n st
  | .portRemoved c pid => handlePortRemoved c pid st
  | .connectionAdded cid payload => handleConnectionAdded cid payload st
  | .connectionRemoved cid => handleConnectionRemoved cid st

/-- Fold a whole event sequence from a starting cache state. -/
def applyEvents (masks : PortMasks) (st : PatchState) (events : List PatchEvent) : PatchState :=
  events.foldl (applyEvent masks) st

/-- `CarlaParameterSnapshot` (frozen dataclass). -/
structure ParamSnapshot where
  identifier : Int
  name : String
  displayName : String
  units : String
  default : ℚ
  minimum : ℚ
  maximum : ℚ
  step : ℚ
  value : ℚ
  description : String
deriving DecidableEq, Repr

/-- `CarlaParameterSnapshot.to_status_entry()`. -/
structure StatusEntry where
  id : Int
  name : String
  displayName : String
  description : String
  units : String
  default : ℚ
  min : ℚ
  max : ℚ
  step : ℚ
  value : ℚ
deriving DecidableEq, Repr

/-- `to_status_entry`: note the `display_name or name` fallback. -/
def ParamSnapshot.toStatusEntry (p : ParamSnapshot) : StatusEntry :=
  ⟨p.identifier, p.name, if p.displayName = "" then p.name else p.displayName,
   p.description, p.units, p.default, p.minimum, p.maximum, p.step, p.value⟩

/-- The mutable per-session fields of `CarlaBackend` that the claims touch.
`hostPresent` models `self.host is not None`. -/
structure BackendState where
  available : Bool
  hostPresent : Bool
  warnings : List Warning
  engineRunning : Bool
  engineConfigured : Bool
  driverName : Option String
  forcedDriver : Option String
  preferredDrivers : List String
  pluginId : Option Int
  pluginPathSet : Bool
  parameters : List ParamSnapshot
  uiVisible : Bool
  supportsMidi : Bool
  midiRouted : Bool
  audioRouted : Bool
  midiWarningEmitted : Bool
  audioWarningEmitted : Bool
  patch : PatchState
  noteTimers : List Int
deriving DecidableEq, Repr

section StableSort

variable {α : Type}

/-- Strict descending lexicographic comparison on `(score, -group_id)` keys. -/
def lexGt (a b : Int × Int) : Bool := a.1 > b.1 || (a.1 = b.1 && a.2 > b.2)

/-- Insert into a descending-sorted list after all entries with an equal or
greater key, preserving original order among equals. -/
def insertDescBy (key : α → Int × Int) (a : α) : List α → List α
  | [] => [a]
  | b :: bs => if lexGt (key a) (key b) then a :: b :: bs else b :: insertDescBy key a bs

/-- Model of Python `list.sort(key=key, reverse=True)`: a stable descending
sort (ties keep their original relative order). -/
def pySortDesc (key : α → Int × Int) (l : List α) : List α :=
  l.foldl (fun acc a => insertDescBy key a acc) []

/-- Insert into an ascending-sorted list after all entries with an equal or
smaller key, preserving original order among equals. -/
def insertAscBy (key : α → Int) (a : α) : List α → List α
  | [] => [a]
  | b :: bs => if key a < key b then a :: b :: bs else b :: insertAscBy key a bs

/-- Model of Python `list.sort(key=key)`: a stable ascending sort. -/
def pySortAsc (key : α → Int) (l : List α) : List α :=
  l.foldl (fun acc a => insertAscBy key a acc) []

end StableSort

/-- Entry of the `candidates` lists accumulated by `_select_midi_sources` /
`_select_audio_targets`. -/
structure Candidate where
  groupId : Int
  portId : Int
  client : ClientInfo
  port : PortInfo
deriving DecidableEq, Repr

/-- Default of `self._patch_clients.get(group_id, {})`: the empty dict reads
back as name `""`, icon `0`, plugin id `-1` through `.get` defaults. -/
def emptyClient : ClientInfo := ⟨"", 0, -1⟩

/-- `_midi_source_sort_key`. -/
def midiSourceSortKey (client : ClientInfo) (port : PortInfo) (groupId : Int) : Int × Int :=
  let name := client.name ++ " " ++ port.name
  let pluginId := client.pluginId
  let score : Int := 0
  let score := if pluginId < 0 then score + 40 else score
  let score :=
    if strHas name "carla" || strHas name "rack" || strHas name "host" then score + 20 else score
  let score := if strHas name "midi" then score + 10 else score
  let score := if strHas name "out" || strHas name "output" then score + 5 else score
  let score := if strHas name "keyboard" then score + 2 else score
  let score := if 0 ≤ pluginId then score - 10 else score
  (score, -groupId)

/-- `_audio_target_sort_key`. -/
def audioTargetSortKey (client : ClientInfo) (port : PortInfo) (groupId : Int) : Int × Int :=
  let name := client.name ++ " " ++ port.name
  let score : Int := 0
  let score := if strHas name "audio" || strHas name "speaker" then score + 30 else score
  let score :=
    if strHas name "playback" || strHas name "output" || strHas name "out" then score + 20 else score
  let score := if strHas name "carla" || strHas name "master" then score + 10 else score
  (score, -groupId)

/-- Candidate collection loop of `_select_midi_sources`: every output MIDI port
in the cache, in dict iteration order. -/
def midiSourceCandidates (st : PatchState) : List Candidate :=
  st.ports.flatMap (fun e =>
    let client := (dictGet e.1 st.clients).getD emptyClient
    (e.2.filter (fun p => !p.2.isInput && p.2.isMidi)).map
      (fun p => ⟨e.1, p.1, client, p.2⟩))

/-- `_select_midi_sources`. -/
def selectMidiSources (st : PatchState) : List (Int × Int) :=
  (pySortDesc (fun c => midiSourceSortKey c.client c.port c.groupId)
      (midiSourceCandidates st)).map
    (fun c => (c.groupId, c.portId))

/-- Candidate collection loop of `_select_audio_targets`: every input audio
port whose owning client has no associated plugin id. -/
def audioTargetCandidates (st : PatchState) : List Candidate :=
  st.ports.flatMap (fun e =>
    let client := (dictGet e.1 st.clients).getD emptyClient
    if 0 ≤ client.pluginId then []
    else
      (e.2.filter (fun p => p.2.isInput && p.2.isAudio)).map
        (fun p => ⟨e.1, p.1, client, p.2⟩))

/-- `_select_audio_targets`. -/
def selectAudioTargets (st : PatchState) : List (Int × Int) :=
  (pySortDesc (fun c => audioTargetSortKey c.client c.port c.groupId)
      (audioTargetCandidates st)).map
    (fun c => (c.groupId, c.portId))

/-- Oracle for the host calls made while routing: outcome of the n-th
`patchbay_connect` call, outcome of the n-th `patchbay_refresh` call, and the
cache contents that the asynchronous callbacks have delivered by the end of
the n-th refresh's settle wait. -/
structure RoutingOracle where
  connectResult : Nat → CallResult Bool
  refreshResult : Nat → CallResult Unit
  refreshedPatch : Nat → PatchState

/-- `_refresh_patchbay_state`: clear the cache, ask the engine to replay the
graph, and let the callback channel repopulate it during the settle wait; a
refresh failure appends a warning and leaves the cache cleared. -/
def refreshPatchbayState (orc : RoutingOracle) (n : Nat) (st : BackendState) :
    BackendState × Nat :=
  if !st.hostPresent then (st, n)
  else
    let st := { st with patch := PatchState.empty }
    match orc.refreshResult n with
    | .err => ({ st with warnings := st.warnings ++ [.refreshFailed] }, n + 1)
    | .ok _ => ({ st with patch := orc.refreshedPatch n }, n + 1)

/-- Result of the `for attempt in range(3)` scan loop shared by both routing
functions: an early return because a suitable connection already exists, the
`for`/`else` give-up, or a break with the plugin's group and its matching
ports. -/
inductive ScanResult where
  | earlyRouted
  | gaveUp
  | found (pluginGroup : Int) (portsFound : List (Int × PortInfo))
deriving DecidableEq, Repr

/-- MIDI input ports of one patchbay group, as collected under the lock by
`_ensure_midi_routing`. -/
def midiInputsOf (patch : PatchState) (g : Int) : List (Int × PortInfo) :=
  ((dictGet g patch.ports).getD []).filter (fun p => p.2.isInput && p.2.isMidi)

/-- Audio output ports of one patchbay group, as collected under the lock by
`_ensure_audio_routing`. -/
def audioOutputsOf (patch : PatchState) (g : Int) : List (Int × PortInfo) :=
  ((dictGet g patch.ports).getD []).filter (fun p => !p.2.isInput && p.2.isAudio)

/-- Scan loop of `_ensure_midi_routing`: on each attempt look up the plugin's
patchbay group; when visible, collect its MIDI input ports and return early if
any cached connection already targets the group; break once inputs are seen;
otherwise force a refresh and retry.  `prevInputs` models the `midi_inputs`
local surviving an iteration in which the group is not visible. -/
def midiRetryLoop (orc : RoutingOracle) (pid : Int) :
    Nat → Nat → List (Int × PortInfo) → BackendState → ScanResult × BackendState × Nat
  | 0, rn, _, st => (.gaveUp, st, rn)
  | fuel + 1, rn, prevInputs, st =>
    match dictGet pid st.patch.pluginGroups with
    | some g =>
      let inputs := midiInputsOf st.patch g
      if st.patch.connections.any (fun k => k.dstGroup = g) then
        (.earlyRouted, { st with midiRouted := true }, rn)
      else if inputs ≠ [] then (.found g inputs, st, rn)
      else
        let next := refreshPatchbayState orc rn st
        midiRetryLoop orc pid fuel next.2 inputs next.1
    | none =>
      let next := refreshPatchbayState orc rn st
      midiRetryLoop orc pid fuel next.2 prevInputs next.1

/-- Inner loop of the MIDI connect stage: try every MIDI input of the plugin
against one source, skipping pairs already cached; a connect exception only
appends a warning.  Returns the connect-call counter, the success flag, the
state, and the list of issued `patchbay_connect` calls. -/
def midiConnectInner (orc : RoutingOracle) (pg sg sp : Int) :
    List (Int × PortInfo) → Nat → Bool → BackendState → List ConnKey →
    Nat × Bool × BackendState × List ConnKey
  | [], cn, succ, st, calls => (cn, succ, st, calls)
  | (portId, _) :: rest, cn, succ, st, calls =>
    if ConnKey.mk sg sp pg portId ∈ st.patch.connections then
      midiConnectInner orc pg sg sp rest cn succ st calls
    else
      match orc.connectResult cn with
      | .ok b =>
        midiConnectInner orc pg sg sp rest (cn + 1) (succ || b) st
          (calls ++ [⟨sg, sp, pg, portId⟩])
      | .err =>
        midiConnectInner orc pg sg sp rest (cn + 1) succ
          { st with warnings := st.warnings ++ [.midiConnectFailed sg sp pg portId] }
          (calls ++ [⟨sg, sp, pg, portId⟩])

/-- Outer loop of the MIDI connect stage over the scored sources, skipping the
plugin's own group. -/
def midiConnectOuter (orc : RoutingOracle) (pg : Int) (inputs : List (Int × PortInfo)) :
    List (Int × Int) → Nat → Bool → BackendState → List ConnKey →
    Bool × BackendState × List ConnKey
  | [], _, succ, st, calls => (succ, st, calls)
  | (sg, sp) :: rest, cn, succ, st, calls =>
    if sg = pg then midiConnectOuter orc pg inputs rest cn succ st calls
    else
      let step := midiConnectInner orc pg sg sp inputs cn succ st calls
      midiConnectOuter orc pg inputs rest step.1 step.2.1 step.2.2.1 step.2.2.2

/-- Tail of `_ensure_midi_routing` after the connect loops: on any success
mark the MIDI routing done, otherwise record the non-fatal warning once. -/
def midiFinish (run : Bool × BackendState × List ConnKey) :
    BackendState × List ConnKey × Except PyError Unit :=
  if run.1 then
    ({ run.2.1 with midiRouted := true, midiWarningEmitted := false }, run.2.2, .ok ())
  else if !run.2.1.midiWarningEmitted then
    ({ run.2.1 with warnings := run.2.1.warnings ++ [.midiNoSource],
                    midiWarningEmitted := true }, run.2.2, .ok ())
  else (run.2.1, run.2.2, .ok ())

/-- Connect stage of `_ensure_midi_routing`: silent return when no source was
scored, otherwise the double connect loop followed by the finish. -/
def midiConnectStage (orc : RoutingOracle) (g : Int) (inputs : List (Int × PortInfo))
    (st : BackendState) : BackendState × List ConnKey × Except PyError Unit :=
  if selectMidiSources st.patch = [] then (st, [], .ok ())
  else
    midiFinish (midiConnectOuter orc g inputs (selectMidiSources st.patch) 0 false st [])

/-- `_ensure_midi_routing`.  The returned list records every
`patchbay_connect` call issued during the invocation; the `Except` component
is `ok` exactly when no exception escapes. -/
def ensureMidiRouting (orc : RoutingOracle) (st : BackendState) :
    BackendState × List ConnKey × Except PyError Unit :=
  if st.midiRouted then (st, [], .ok ())
  else
    match st.pluginId with
    | none => (st, [], .ok ())
    | some pid =>
      if !st.hostPresent || !st.supportsMidi then (st, [], .ok ())
      else
        match midiRetryLoop orc pid 3 0 [] st with
        | (.earlyRouted, st', _) => (st', [], .ok ())
        | (.gaveUp, st', _) => (st', [], .ok ())
        | (.found g inputs, st', _) => midiConnectStage orc g inputs st'

/-- Check used by the audio scan's early exit: the target port of a cached
connection is a known audio port
(`self._patch_ports.get(conn[2], {}).get(conn[3], {}).get("is_audio")`). -/
def connTargetIsAudio (patch : PatchState) (k : ConnKey) : Bool :=
  match dictGet k.dstGroup patch.ports with
  | none => false
  | some portDict =>
    match dictGet k.dstPort portDict with
    | none => false
    | some p => p.isAudio

/-- Scan loop of `_ensure_audio_routing`, analogous to `midiRetryLoop` but
collecting audio output ports and returning early only when an existing
connection leaves the plugin's group for an audio port. -/
def audioRetryLoop (orc : RoutingOracle) (pid : Int) :
    Nat → Nat → List (Int × PortInfo) → BackendState → ScanResult × BackendState × Nat
  | 0, rn, _, st => (.gaveUp, st, rn)
  | fuel + 1, rn, prevOuts, st =>
    match dictGet pid st.patch.pluginGroups with
    | some g =>
      let outs := audioOutputsOf st.patch g
      if outs ≠ [] &&
          st.patch.connections.any (fun k => k.srcGroup = g && connTargetIsAudio st.patch k) then
        (.earlyRouted, { st with audioRouted := true }, rn)
      else if outs ≠ [] then (.found g outs, st, rn)
      else
        let next := refreshPatchbayState orc rn st
        audioRetryLoop orc pid fuel next.2 outs next.1
    | none =>
      let next := refreshPatchbayState orc rn st
      audioRetryLoop orc pid fuel next.2 prevOuts next.1

/-- Connection key attempted at one index of the audio connect stage:
`audio_outputs[index][0]` paired with `targets[index]`. -/
def audioPairAt (pg : Int) (outs : List (Int × PortInfo)) (tgts : List (Int × Int))
    (i : Nat) : ConnKey :=
  ConnKey.mk pg (((outs[i]?).map Prod.fst).getD 0)
    ((tgts[i]?).getD (0, 0)).1 ((tgts[i]?).getD (0, 0)).2

/-- Connect stage of `_ensure_audio_routing`: `for index in range(connections)`
pairing the index-th sorted plugin output with the index-th scored target,
skipping pairs already cached; a connect exception only appends a warning. -/
def audioConnectLoop (orc : RoutingOracle) (pg : Int) (outs : List (Int × PortInfo))
    (tgts : List (Int × Int)) :
    List Nat → Nat → Bool → BackendState → List ConnKey →
    Bool × BackendState × List ConnKey
  | [], _, succ, st, calls => (succ, st, calls)
  | i :: rest, cn, succ, st, calls =>
    if audioPairAt pg outs tgts i ∈ st.patch.connections then
      audioConnectLoop orc pg outs tgts rest cn succ st calls
    else
      match orc.connectResult cn with
      | .ok b =>
        audioConnectLoop orc pg outs tgts rest (cn + 1) (succ || b) st
          (calls ++ [audioPairAt pg outs tgts i])
      | .err =>
        audioConnectLoop orc pg outs tgts rest (cn + 1) succ
          { st with warnings := st.warnings ++
              [.audioConnectFailed (audioPairAt pg outs tgts i).srcPort
                (audioPairAt pg outs tgts i).dstGroup (audioPairAt pg outs tgts i).dstPort] }
          (calls ++ [audioPairAt pg outs tgts i])

/-- Number of stereo pairs the audio connect stage attempts:
`min(len(audio_outputs), len(targets), 2)`. -/
def audioConnCount (patch : PatchState) (outs : List (Int × PortInfo)) : Nat :=
  min (min (pySortAsc (fun p => p.1) outs).length (selectAudioTargets patch).length) 2

/-- Tail of `_ensure_audio_routing` after the connect loop: on any success
mark the audio routing done, otherwise record the non-fatal warning once. -/
def audioFinish (run : Bool × BackendState × List ConnKey) :
    BackendState × List ConnKey × Except PyError Unit :=
  if run.1 then
    ({ run.2.1 with audioRouted := true, audioWarningEmitted := false }, run.2.2, .ok ())
  else if !run.2.1.audioWarningEmitted then
    ({ run.2.1 with warnings := run.2.1.warnings ++ [.audioMuted],
                    audioWarningEmitted := true }, run.2.2, .ok ())
  else (run.2.1, run.2.2, .ok ())

/-- Connect stage of `_ensure_audio_routing`: warn once when no target was
scored, otherwise run the index-wise connect loop over the ascending-sorted
outputs and finish. -/
def audioConnectStage (orc : RoutingOracle) (g : Int) (outs : List (Int × PortInfo))
    (st : BackendState) : BackendState × List ConnKey × Except PyError Unit :=
  if selectAudioTargets st.patch = [] then
    if !st.audioWarningEmitted then
      ({ st with warnings := st.warnings ++ [.audioNoTarget],
                 audioWarningEmitted := true }, [], .ok ())
    else (st, [], .ok ())
  else
    audioFinish (audioConnectLoop orc g (pySortAsc (fun p => p.1) outs)
      (selectAudioTargets st.patch) (List.range (audioConnCount st.patch outs))
      0 false st [])

/-- `_ensure_audio_routing`.  The returned list records every
`patchbay_connect` call issued during the invocation. -/
def ensureAudioRouting (orc : RoutingOracle) (st : BackendState) :
    BackendState × List ConnKey × Except PyError Unit :=
  if st.audioRouted then (st, [], .ok ())
  else
    match st.pluginId with
    | none => (st, [], .ok ())
    | some pid =>
      if !st.hostPresent then (st, [], .ok ())
      else
        match audioRetryLoop orc pid 3 0 [] st with
        | (.earlyRouted, st', _) => (st', [], .ok ())
        | (.gaveUp, st', _) => (st', [], .ok ())
        | (.found g outs, st', _) => audioConnectStage orc g outs st'

/-- The connect calls the MIDI connect stage issues: one per (scored source,
plugin MIDI input) pair whose source is not the plugin's own group and whose
key is not already cached.  Mirrors the unbroken double loop of
`_ensure_midi_routing`. -/
def midiPlannedCalls (patch : PatchState) (pg : Int)
    (inputs : List (Int × PortInfo)) : List ConnKey :=
  (selectMidiSources patch).flatMap (fun src =>
    if src.1 = pg then []
    else
      (inputs.filter
          (fun p => !decide (ConnKey.mk src.1 src.2 pg p.1 ∈ patch.connections))).map
        (fun p => ConnKey.mk src.1 src.2 pg p.1))

/-- The connect calls the audio connect stage issues: the index-wise pairs of
the sorted outputs and scored targets, truncated to two, minus the pairs
already cached. -/
def audioPlannedCalls (patch : PatchState) (pg : Int)
    (outs : List (Int × PortInfo)) : List ConnKey :=
  ((List.range (audioConnCount patch outs)).map
      (audioPairAt pg (pySortAsc (fun p => p.1) outs) (selectAudioTargets patch))).filter
    (fun k => !decide (k ∈ patch.connections))

/-- Enumeration loop shared by `_select_driver` and `_available_drivers`: each
`get_engine_driver_name` call either yields a name or raises (or returns a
non-string), in which case it is skipped; names are deduplicated
case-insensitively keeping the first spelling. -/
def enumerateDrivers (raw : List (CallResult String)) : List String :=
  raw.foldl
    (fun acc r =>
      match r with
      | .err => acc
      | .ok name => if acc.any (fun s => eqCI s name) then acc else acc ++ [name])
    []

/-- Preference scan of `_select_driver`: first preference with a
case-insensitive match among the enumerated names, returned in the enumerated
spelling. -/
def firstPreferredDriver (preferred names : List String) : Option String :=
  match preferred with
  | [] => none
  | p :: ps =>
    match names.find? (fun c => eqCI c p) with
    | some c => some c
    | none => firstPreferredDriver ps names

/-- Core of `_select_driver` once the available names are enumerated: forced
driver wins on a case-insensitive match and raises `CarlaHostError` listing
the detected drivers when absent; otherwise the first matching preference;
otherwise the first enumerated name; `none` when nothing was enumerated. -/
def selectDriver (forced : Option String) (preferred : List String)
    (names : List String) : Except PyError (Option String) :=
  if names = [] then .ok none
  else
    match forced with
    | some f =>
      match names.find? (fun c => eqCI c f) with
      | some c => .ok (some c)
      | none => .error (.carlaHost (.driverNotAvailable f names))
    | none => .ok (some ((firstPreferredDriver preferred names).getD (names.headD "")))

/-- Oracle for `_ensure_engine`: the outcome of `_available_drivers()` and of
each `engine_init(candidate, client_name)` call (`.err` models a raised
exception, which the source records and treats like a `False` return). -/
structure EngineOracle where
  availableDrivers : List String
  initResult : String → CallResult Bool

/-- Candidate construction of `_ensure_engine`: forced driver first, then the
preferences present in the available set, then every remaining available
driver, without duplicates (exact string comparison, as in the source). -/
def attemptOrder (forced : Option String) (preferred available : List String) :
    List String :=
  let base : List String :=
    match forced with
    | some f => [f]
    | none => []
  let withPref :=
    preferred.foldl (fun acc p => if p ∈ available ∧ p ∉ acc then acc ++ [p] else acc) base
  available.foldl (fun acc n => if n ∉ acc then acc ++ [n] else acc) withPref

/-- Init loop of `_ensure_engine`: first candidate whose `engine_init`
returns true; failures and exceptions only extend the error list kept for the
final message. -/
def engineInitLoop (orc : EngineOracle) : List String → Option String
  | [] => none
  | c :: rest =>
    match orc.initResult c with
    | .ok true => some c
    | _ => engineInitLoop orc rest

/-- `_ensure_engine`.  The idle-ticking thread started on success carries no
modelled state. -/
def ensureEngine (orc : EngineOracle) (st : BackendState) :
    BackendState × Except PyError Unit :=
  if !st.available || !st.hostPresent then (st, .error (.carlaHost .backendNotAvailable))
  else if st.engineRunning then (st, .ok ())
  else
    let st := { st with engineConfigured := true }
    if orc.availableDrivers = [] then (st, .error (.carlaHost .noDrivers))
    else
      let proceed : Except PyError Unit :=
        match st.forcedDriver with
        | some f =>
          if f ∈ orc.availableDrivers then .ok ()
          else .error (.carlaHost (.driverNotAvailable f orc.availableDrivers))
        | none => .ok ()
      match proceed with
      | .error e => (st, .error e)
      | .ok _ =>
        match engineInitLoop orc
            (attemptOrder st.forcedDriver st.preferredDrivers orc.availableDrivers) with
        | none => (st, .error (.carlaHost .engineInitFailed))
        | some d => ({ st with driverName := some d, engineRunning := true }, .ok ())

/-- The `int | str` union type of `set_parameter`'s identifier argument. -/
inductive ParamIdent where
  | int (i : Int)
  | str (s : String)
deriving DecidableEq, Repr

/-- Scan loop of `_resolve_parameter_identifier` for a string identifier:
match against name or display name first, then against the numeric value of
the string if it parses. -/
def resolveScan (s : String) (index : Option Int) :
    List ParamSnapshot → Except PyError Int
  | [] => .error (.carlaHost (.unknownParameter s))
  | p :: rest =>
    if s = p.name || s = p.displayName then .ok p.identifier
    else
      match index with
      | some j => if p.identifier = j then .ok p.identifier else resolveScan s index rest
      | none => resolveScan s index rest

/-- `_resolve_parameter_identifier`: an `int` identifier is returned as-is
without any validation against the table; a string is resolved by scanning
the cached table. -/
def resolveParameterIdentifier (params : List ParamSnapshot) :
    ParamIdent → Except PyError Int
  | .int i => .ok i
  | .str s => resolveScan s (parseInt? s) params

/-- Cache update loop of `set_parameter`: rebuild the first snapshot whose
identifier matches, field by field with only `value` replaced, then stop. -/
def updateParamValue (paramId : Int) (v : ℚ) :
    List ParamSnapshot → List ParamSnapshot
  | [] => []
  | p :: rest =>
    if p.identifier = paramId then
      { identifier := p.identifier, name := p.name, displayName := p.displayName,
        units := p.units, default := p.default, minimum := p.minimum,
        maximum := p.maximum, step := p.step, value := v,
        description := p.description } :: rest
    else p :: updateParamValue paramId v rest

/-- Oracle for `set_parameter`: the (unguarded) `set_parameter_value` call and
the (unguarded) `get_plugin_info` call made while building the returned
payload. -/
structure SetParamOracle where
  setValueResult : CallResult Unit
  pluginInfoResult : CallResult Unit
deriving DecidableEq, Repr

/-- `set_parameter`.  On success the returned value is the cached parameter
table embedded in the response payload. -/
def setParameter (orc : SetParamOracle) (st : BackendState) (ident : ParamIdent)
    (v : ℚ) : BackendState × Except PyError (List ParamSnapshot) :=
  if st.pluginId = none || !st.hostPresent then (st, .error (.carlaHost .noPluginHosted))
  else
    match resolveParameterIdentifier st.parameters ident with
    | .error e => (st, .error e)
    | .ok paramId =>
      match orc.setValueResult with
      | .err => (st, .error .other)
      | .ok _ =>
        let newParams := updateParamValue paramId v st.parameters
        let st := { st with parameters := newParams }
        match orc.pluginInfoResult with
        | .err => (st, .error .other)
        | .ok _ => (st, .ok newParams)

/-- Oracle for `unload`: the `_show_plugin_ui(False)` call (which only ever
raises `CarlaHostError`, caught by `unload`), the two removal calls,
`get_last_error` (modelled as total) and the trailing guarded `engine_idle`.
`remove_all_plugins` returning `None` counts as success in the source. -/
structure UnloadOracle where
  showUiResult : CallResult Unit
  removeAllResult : CallResult (Option Bool)
  removePluginResult : CallResult Unit
  lastError : String
  idleResult : CallResult Unit

/-- Engine-side removal calls issued by `unload`, recorded for the no-op
claim. -/
inductive RemovalCall where
  | removeAll
  | removePlugin (pluginId : Int)
deriving DecidableEq, Repr

/-- Removal stage of `unload` for a hosted plugin id: hide the UI
best-effort, bulk remove, fall back to removing the single id, and surface
`get_last_error` as a warning when both failed. -/
def unloadRemovalStage (orc : UnloadOracle) (pid : Int) (st : BackendState) :
    BackendState × List RemovalCall :=
  let st :=
    match orc.showUiResult with
    | .ok _ => { st with uiVisible := false }
    | .err => st
  let afterAll : BackendState × Bool :=
    match orc.removeAllResult with
    | .ok (some b) => (st, b)
    | .ok none => (st, true)
    | .err => ({ st with warnings := st.warnings ++ [.removeAllFailed] }, false)
  let st := afterAll.1
  let afterSingle : BackendState × Bool × List RemovalCall :=
    if afterAll.2 then (st, true, [.removeAll])
    else
      match orc.removePluginResult with
      | .ok _ => (st, true, [.removeAll, .removePlugin pid])
      | .err =>
        ({ st with warnings := st.warnings ++ [.removePluginFailed pid] }, false,
         [.removeAll, .removePlugin pid])
  let st := afterSingle.1
  let st :=
    if !afterSingle.2.1 ∧ orc.lastError ≠ "" then
      { st with warnings := st.warnings ++ [.unloadReported orc.lastError] }
    else st
  (st, afterSingle.2.2)

/-- Unconditional local reset performed at the end of `unload`. -/
def resetSessionFields (st : BackendState) : BackendState :=
  { st with pluginId := none, pluginPathSet := false, parameters := [],
            uiVisible := false, supportsMidi := false, midiRouted := false,
            midiWarningEmitted := false, audioRouted := false,
            audioWarningEmitted := false, noteTimers := [] }

/-- `unload`. -/
def unload (orc : UnloadOracle) (st : BackendState) :
    BackendState × List RemovalCall × Except PyError Unit :=
  if !st.available || !st.hostPresent then (st, [], .ok ())
  else
    match st.pluginId with
    | none => (resetSessionFields st, [], .ok ())
    | some pid =>
      let stage := unloadRemovalStage orc pid st
      (resetSessionFields stage.1, stage.2, .ok ())

/-- Oracle for `load_plugin`.  The model covers a non-Windows host, so the
platform-conditional PE-image inspection is skipped; `show_ui` keeps its
default `False`.  The initial-parameter loop resolves keys against the fresh
table with a per-iteration `set_parameter` oracle. -/
structure LoadOracle where
  pathExists : Bool
  suffix : String
  engine : EngineOracle
  removeAllResult : CallResult Unit
  addResult : CallResult Bool
  collectResult : CallResult (List ParamSnapshot)
  activateResult : CallResult Unit
  acceptsMidi : Bool
  loadRefreshResult : CallResult Unit
  loadRefreshedPatch : PatchState
  audioRouting : RoutingOracle
  midiRouting : RoutingOracle
  setParamOracles : Nat → SetParamOracle
  payloadResult : CallResult Unit

/-- Initial-parameter loop of `load_plugin`: each entry goes through
`set_parameter`, and only a `CarlaHostError` is swallowed (`continue`); any
other exception propagates out of `load_plugin`. -/
def applyInitialParams (orcs : Nat → SetParamOracle) :
    List (String × ℚ) → Nat → BackendState → BackendState × Except PyError Unit
  | [], _, st => (st, .ok ())
  | (k, v) :: rest, i, st =>
    match setParameter (orcs i) st (.str k) v with
    | (st', .ok _) => applyInitialParams orcs rest (i + 1) st'
    | (st', .error (.carlaHost _)) => applyInitialParams orcs rest (i + 1) st'
    | (st', .error e) => (st', .error e)

/-- `load_plugin`.  Mirrors the source order: existence and format checks,
`_ensure_engine`, timer cancellation, clearing any previous plugin (the
guarded `remove_plugin` of the known id, then the guarded
`remove_all_plugins`), `add_plugin`, parameter collection, activation, MIDI
capability probe, the routed-flag reset, one `_refresh_patchbay_state`, the
two routing passes, and the initial-parameter loop.  On success the payload
is the fresh cached table. -/
def loadPlugin (orc : LoadOracle) (st : BackendState)
    (initialParams : List (String × ℚ)) :
    BackendState × Except PyError (List ParamSnapshot) :=
  if !orc.pathExists then (st, .error .fileNotFound)
  else if orc.suffix ∉ [".vst3", ".vst", ".dll"] then
    (st, .error (.carlaHost .unsupportedFormat))
  else
    match ensureEngine orc.engine st with
    | (st, .error e) => (st, .error e)
    | (st, .ok _) =>
      let st := { st with noteTimers := [] }
      let st :=
        match st.pluginId with
        | some _ => { st with pluginId := none }
        | none => st
      let st :=
        match orc.removeAllResult with
        | .ok _ => st
        | .err => { st with warnings := st.warnings ++ [.clearBeforeLoadFailed] }
      match orc.addResult with
      | .err => (st, .error .other)
      | .ok false => (st, .error (.carlaHost .loadFailed))
      | .ok true =>
        let st := { st with pluginId := some 0, pluginPathSet := true }
        match orc.collectResult with
        | .err => (st, .error .other)
        | .ok params =>
          let st := { st with parameters := params, uiVisible := false }
          let st : BackendState :=
            match orc.activateResult with
            | .ok _ => st
            | .err => { st with warnings := st.warnings ++ [.activateFailed] }
          let st :=
            { st with supportsMidi := orc.acceptsMidi, midiRouted := false,
                      midiWarningEmitted := false, audioRouted := false,
                      audioWarningEmitted := false, noteTimers := [] }
          let st : BackendState :=
            if st.hostPresent then
              match orc.loadRefreshResult with
              | .err =>
                { st with patch := PatchState.empty,
                          warnings := st.warnings ++ [.refreshFailed] }
              | .ok _ => { st with patch := orc.loadRefreshedPatch }
            else st
          match ensureAudioRouting orc.audioRouting st with
          | (st, _, .error e) => (st, .error e)
          | (st, _, .ok _) =>
            let midiStage :=
              if st.supportsMidi then ensureMidiRouting orc.midiRouting st
              else (st, [], .ok ())
            match midiStage with
            | (st, _, .error e) => (st, .error e)
            | (st, _, .ok _) =>
              match applyInitialParams orc.setParamOracles initialParams 0 st with
              | (st, .error e) => (st, .error e)
              | (st, .ok _) =>
                match orc.payloadResult with
                | .err => (st, .error .other)
                | .ok _ => (st, .ok st.parameters)

/-- Oracle for the note functions: one routing oracle per lazy routing pass
and the outcome of the unguarded `send_midi_note` call (an exception from the
native binding is not a `CarlaHostError`). -/
structure NoteOracle where
  midiRouting : RoutingOracle
  audioRouting : RoutingOracle
  sendResult : CallResult Unit

/-- Tail of `_send_midi_note`: the unguarded `send_midi_note` host call
followed by the guarded settle idle.  The clamped 7-bit velocity computed by
the source is passed only to this abstracted host call, so it carries no
modelled state. -/
def noteSendFinish (orc : NoteOracle) (st : BackendState) :
    BackendState × Except PyError Unit :=
  match orc.sendResult with
  | .err => (st, .error .other)
  | .ok _ => (st, .ok ())

/-- Lazy audio-routing pass of `_send_midi_note` applied to the result of the
lazy MIDI pass, then the send itself. -/
def noteAudioStage (orc : NoteOracle)
    (r : BackendState × List ConnKey × Except PyError Unit) :
    BackendState × Except PyError Unit :=
  match r with
  | (st₁, _, .error e) => (st₁, .error e)
  | (st₁, _, .ok _) =>
    match (if !st₁.audioRouted then ensureAudioRouting orc.audioRouting st₁
           else (st₁, [], .ok ())) with
    | (st₂, _, .error e) => (st₂, .error e)
    | (st₂, _, .ok _) => noteSendFinish orc st₂

/-- `_send_midi_note`: raises `CarlaHostError` when no plugin is hosted or the
plugin does not accept MIDI; otherwise lazily runs the two routing passes and
sends the note. -/
def sendMidiNote (orc : NoteOracle) (st : BackendState) :
    BackendState × Except PyError Unit :=
  if !st.hostPresent || st.pluginId = none then
    (st, .error (.carlaHost .noPluginHosted))
  else if !st.supportsMidi then (st, .error (.carlaHost .notAcceptMidi))
  else
    noteAudioStage orc
      (if !st.midiRouted then ensureMidiRouting orc.midiRouting st
       else (st, [], .ok ()))

/-- `_cancel_note_timer`: drop any pending timer for the note. -/
def cancelTimer (note : Int) (st : BackendState) : BackendState :=
  { st with noteTimers := st.noteTimers.filter (fun n => n ≠ note) }

/-- `note_on`: cancel a pending timer for the note, then send it. -/
def noteOn (orc : NoteOracle) (st : BackendState) (note : Int) :
    BackendState × Except PyError Unit :=
  sendMidiNote orc (cancelTimer note st)

/-- `note_off`: cancel a pending timer, send velocity zero, and swallow a
`CarlaHostError`; any other exception still propagates. -/
def noteOff (orc : NoteOracle) (st : BackendState) (note : Int) :
    BackendState × Except PyError Unit :=
  match sendMidiNote orc (cancelTimer note st) with
  | (st', .error (.carlaHost _)) => (st', .ok ())
  | r => r

/-- Oracle for `close`: delegate to `unload`, then a guarded `engine_close`. -/
structure CloseOracle where
  unloadOracle : UnloadOracle
  closeResult : CallResult Unit

/-- `close`: unload, stop the idle thread, close the engine best-effort. -/
def close (orc : CloseOracle) (st : BackendState) : BackendState :=
  if !st.available || !st.hostPresent then st
  else
    let st := (unload orc.unloadOracle st).1
    let st :=
      if st.engineRunning then
        match orc.closeResult with
        | .ok _ => st
        | .err => st
      else st
    { st with engineRunning := false, driverName := none }

/-- Parameter table of `status()`: empty when no plugin is hosted, otherwise
the status entries of the cached snapshots.  `status()` itself performs no
state mutation. -/
def statusParameters (st : BackendState) : List StatusEntry :=
  if st.pluginId = none then [] else st.parameters.map ParamSnapshot.toStatusEntry

/-- Capability flags reported by `status()`. -/
def statusRoutedFlags (st : BackendState) : Bool × Bool :=
  (st.midiRouted, st.audioRouted)

/-- Pointwise form of the optimistic cache update, used to state C8: only the
snapshot with the resolved id changes, and only its `value` field. -/
def mapSetValue (pid : Int) (v : ℚ) (l : List ParamSnapshot) : List ParamSnapshot :=
  l.map (fun p => if p.identifier = pid then { p with value := v } else p)

/-! ### Concrete fixtures used by witnesses and counterexamples -/

/-- Routing oracle whose refreshes succeed but deliver an empty graph and
whose connects succeed. -/
def routingOrcEmpty : RoutingOracle :=
  ⟨fun _ => .ok true, fun _ => .ok (), fun _ => PatchState.empty⟩

/-- Engine oracle reporting a single driver that initialises. -/
def engineOrcJack : EngineOracle := ⟨["JACK"], fun _ => .ok true⟩

/-- A freshly constructed backend with the host library present. -/
def baseState : BackendState :=
  ⟨true, true, [], false, false, none, none, [], none, false, [], false,
   false, false, false, false, false, PatchState.empty, []⟩

/-- A parameter snapshot with the given id and name. -/
def sampleParam (i : Int) (nm : String) : ParamSnapshot :=
  ⟨i, nm, nm, "", 0, 0, 1, 0, 0, ""⟩

/-- Load oracle for a well-behaved engine whose graph stays empty, reporting
the given parameter table. -/
def loadOracleParams (ps : List ParamSnapshot) : LoadOracle :=
  { pathExists := true, suffix := ".vst3", engine := engineOrcJack,
    removeAllResult := .ok (), addResult := .ok true, collectResult := .ok ps,
    activateResult := .ok (), acceptsMidi := false,
    loadRefreshResult := .ok (), loadRefreshedPatch := PatchState.empty,
    audioRouting := routingOrcEmpty, midiRouting := routingOrcEmpty,
    setParamOracles := fun _ => ⟨.ok (), .ok ()⟩, payloadResult := .ok () }

/-- Unload oracle for a cooperative engine. -/
def unloadOracleOk : UnloadOracle := ⟨.ok (), .ok (some true), .ok (), "", .ok ()⟩

/-- Graph cache used by the C2 scenario: two external MIDI keyboards (groups
2 and 3) and the hosted plugin's group 10 with one MIDI input. -/
def midiScenarioPatch : PatchState :=
  ⟨[(2, ⟨"Keyboard A", 0, -1⟩), (3, ⟨"Keyboard B", 0, -1⟩), (10, ⟨"Synth", 0, 0⟩)],
   [(2, [(1, ⟨"midi out", 0, 2, false, false, true⟩)]),
    (3, [(1, ⟨"midi out", 0, 3, false, false, true⟩)]),
    (10, [(1, ⟨"midi in", 0, 10, true, false, true⟩)])],
   [], [], [(0, 10)]⟩

/-- Loaded, MIDI-capable, not yet routed session over `midiScenarioPatch`. -/
def midiScenarioState : BackendState :=
  { baseState with pluginId := some 0, engineRunning := true,
                   supportsMidi := true, patch := midiScenarioPatch }

/-- Graph cache used by the C6 scenario: a non-plugin playback client (group
5) with two audio inputs and the hosted plugin's group 10 with two audio
outputs. -/
def audioScenarioPatch : PatchState :=
  ⟨[(5, ⟨"System Playback", 0, -1⟩), (10, ⟨"Synth", 0, 0⟩)],
   [(5, [(1, ⟨"playback 1", 0, 5, true, true, false⟩),
         (2, ⟨"playback 2", 0, 5, true, true, false⟩)]),
    (10, [(2, ⟨"audio out R", 0, 10, false, true, false⟩),
          (1, ⟨"audio out L", 0, 10, false, true, false⟩)])],
   [], [], [(0, 10)]⟩

/-- Loaded, not yet audio-routed session over `audioScenarioPatch`. -/
def audioScenarioState : BackendState :=
  { baseState with pluginId := some 0, engineRunning := true,
                   patch := audioScenarioPatch }

/-- Graph cache for the silent give-up scenario: only the plugin's own group
is present, with one MIDI input and no MIDI source anywhere. -/
def silentScenarioPatch : PatchState :=
  ⟨[(10, ⟨"Synth", 0, 0⟩)], [(10, [(1, ⟨"midi in", 0, 10, true, false, true⟩)])],
   [], [], [(0, 10)]⟩

/-- Loaded MIDI-capable session over `silentScenarioPatch`. -/
def silentScenarioState : BackendState :=
  { baseState with pluginId := some 0, engineRunning := true,
                   supportsMidi := true, patch := silentScenarioPatch }

/-- A loaded, fully routed session (flags set). -/
def routedLoadedState : BackendState :=
  { baseState with pluginId := some 0, engineRunning := true,
                   supportsMidi := true, midiRouted := true, audioRouted := true }

/-! ### Dictionary and purge lemmas -/

theorem dictGet_eq_none_of_not_mem {κ α : Type} [DecidableEq κ] (k : κ)
    (d : List (κ × α)) (h : k ∉ d.map Prod.fst) : dictGet k d = none := by
  induction d with
  | nil => rfl
  | cons e rest ih =>
    simp only [List.map_cons, List.mem_cons] at h
    push_neg at h
    simp only [dictGet]
    rw [if_neg (fun he => h.1 he.symm)]
    exact ih h.2

theorem dictGet_dictPop_self {κ α : Type} [DecidableEq κ] (k : κ)
    (d : List (κ × α)) (h : (d.map Prod.fst).Nodup) :
    dictGet k (dictPop k d) = none := by
  induction d with
  | nil => rfl
  | cons e rest ih =>
    simp only [List.map_cons, List.nodup_cons] at h
    simp only [dictPop]
    by_cases hk : e.1 = k
    · rw [if_pos hk]
      exact dictGet_eq_none_of_not_mem k rest (hk ▸ h.1)
    · rw [if_neg hk]
      simp only [dictGet]
      rw [if_neg hk]
      exact ih h.2

theorem mem_setDiscard {α : Type} [DecidableEq α] {x y : α} {s : List α} :
    y ∈ setDiscard x s ↔ y ∈ s ∧ y ≠ x := by
  simp [setDiscard]

/-- Effect of the cascade loop on the connections set: every key satisfying
the predicate that is covered by the snapshot of the id map is discarded. -/
theorem purgeConnections_clears (cond : ConnKey → Bool) :
    ∀ (snapshot : List (Int × ConnKey)) (st : PatchState),
    (∀ k ∈ st.connections, cond k = true → ∃ e ∈ snapshot, e.2 = k) →
    ∀ k ∈ (purgeConnections cond snapshot st).connections, cond k = false := by
  intro snapshot
  induction snapshot with
  | nil =>
    intro st hcov k hk
    simp only [purgeConnections] at hk
    rcases Bool.eq_false_or_eq_true (cond k) with ht | hf
    · exact absurd (hcov k hk ht) (by simp)
    · exact hf
  | cons e rest ih =>
    intro st hcov k hk
    simp only [purgeConnections] at hk
    by_cases hc : cond e.2 = true
    · rw [if_pos hc] at hk
      refine ih _ ?_ k hk
      intro k' hk' hck'
      rcases mem_setDiscard.mp hk' with ⟨hmem, hne⟩
      rcases hcov k' hmem hck' with ⟨e', he', hval⟩
      rcases List.mem_cons.mp he' with he | he
      · exact absurd (he ▸ hval) hne.symm
      · exact ⟨e', he, hval⟩
    · rw [if_neg hc] at hk
      refine ih _ ?_ k hk
      intro k' hk' hck'
      rcases hcov k' hk' hck' with ⟨e', he', hval⟩
      rcases List.mem_cons.mp he' with he | he
      · refine absurd ?_ hc
        rw [← hval, he] at hck'
        exact hck'
      · exact ⟨e', he, hval⟩

theorem purgeConnections_ports (cond : ConnKey → Bool) :
    ∀ (snapshot : List (Int × ConnKey)) (st : PatchState),
    (purgeConnections cond snapshot st).ports = st.ports := by
  intro snapshot
  induction snapshot with
  | nil => intro st; rfl
  | cons e rest ih =>
    intro st
    simp only [purgeConnections]
    by_cases hc : cond e.2 = true
    · rw [if_pos hc, ih]
    · rw [if_neg hc, ih]

theorem purgeConnections_clients (cond : ConnKey → Bool) :
    ∀ (snapshot : List (Int × ConnKey)) (st : PatchState),
    (purgeConnections cond snapshot st).clients = st.clients := by
  intro snapshot
  induction snapshot with
  | nil => intro st; rfl
  | cons e rest ih =>
    intro st
    simp only [purgeConnections]
    by_cases hc : cond e.2 = true
    · rw [if_pos hc, ih]
    · rw [if_neg hc, ih]

/-! ### C5: cascade deletion in the patchbay graph cache -/

/-- C5 (amended): provided every key in the connections set is tracked by an
entry of the connection-id map (which holds unless a connection-added event
re-used a live connection id) and the ports dict has no duplicate client keys,
a client-removed event leaves no port dict and no client entry for that client
and no connection whose source or target client is that client, and a
port-removed event for a known port leaves no connection whose source or
target endpoint is that (client, port) pair. -/
theorem c5_cascade_deletion (st : PatchState) (c p : Int)
    (hcov : ∀ k ∈ st.connections, ∃ e ∈ st.connectionIds, e.2 = k)
    (hports : (st.ports.map Prod.fst).Nodup)
    (hclients : (st.clients.map Prod.fst).Nodup) :
    (dictGet c (handleClientRemoved c st).ports = none ∧
     dictGet c (handleClientRemoved c st).clients = none ∧
     ∀ k ∈ (handleClientRemoved c st).connections, k.srcGroup ≠ c ∧ k.dstGroup ≠ c) ∧
    (dictMem p ((dictGet c st.ports).getD []) = true →
      ∀ k ∈ (handlePortRemoved c p st).connections,
        ¬(k.srcGroup = c ∧ k.srcPort = p) ∧ ¬(k.dstGroup = c ∧ k.dstPort = p)) := by
  constructor
  · refine ⟨?_, ?_, ?_⟩
    · show dictGet c (purgeConnections _ _ _).ports = none
      rw [purgeConnections_ports]
      exact dictGet_dictPop_self c st.ports hports
    · show dictGet c (purgeConnections _ _ _).clients = none
      rw [purgeConnections_clients]
      exact dictGet_dictPop_self c st.clients hclients
    · intro k hk
      have hfalse := purgeConnections_clears
        (fun k => k.srcGroup = c ∨ k.dstGroup = c) st.connectionIds
        { st with clients := dictPop c st.clients, ports := dictPop c st.ports,
                  pluginGroups := st.pluginGroups.filter (fun e => e.2 ≠ c) }
        (fun k' hk' _ => hcov k' hk') k hk
      simpa using hfalse
  · intro hmem k hk
    unfold handlePortRemoved at hk
    cases h1 : dictGet c st.ports with
    | none =>
      rw [h1] at hmem
      simp [dictMem, dictGet] at hmem
    | some portDict =>
      rw [h1] at hmem
      simp only [Option.getD_some] at hmem
      have h2 : portDict ≠ [] := by
        intro h
        rw [h] at hmem
        simp [dictMem, dictGet] at hmem
      simp only [h1, if_neg h2, if_pos hmem] at hk
      have hfalse := purgeConnections_clears
        (fun k => (k.srcGroup = c ∧ k.srcPort = p) ∨ (k.dstGroup = c ∧ k.dstPort = p))
        st.connectionIds
        { st with ports :=
            if dictPop p portDict = [] then dictPop c st.ports
            else dictSet c (dictPop p portDict) st.ports }
        (fun k' hk' _ => hcov k' hk') k hk
      simpa using hfalse

/-- C5 witness: the cascade theorem applied to a one-connection cache. -/
theorem c5_cascade_deletion_witness :
    (∀ k ∈ ([⟨5, 1, 6, 1⟩] : List ConnKey), ∃ e ∈ [((1 : Int), ConnKey.mk 5 1 6 1)], e.2 = k) ∧
    (∀ k ∈ (handleClientRemoved 5
        ⟨[(5, ⟨"SrcA", 0, -1⟩)], [(5, [(1, ⟨"midi out", 0, 5, false, false, true⟩)])],
         [⟨5, 1, 6, 1⟩], [(1, ⟨5, 1, 6, 1⟩)], []⟩).connections,
      k.srcGroup ≠ 5 ∧ k.dstGroup ≠ 5) :=
  ⟨by decide,
   ((c5_cascade_deletion
      ⟨[(5, ⟨"SrcA", 0, -1⟩)], [(5, [(1, ⟨"midi out", 0, 5, false, false, true⟩)])],
       [⟨5, 1, 6, 1⟩], [(1, ⟨5, 1, 6, 1⟩)], []⟩ 5 1
      (by decide) (by decide) (by decide)).1).2.2⟩

/-- C5 counterexample to the claim as stated: from an empty cache, a
connection-added event whose id is then re-added with a different key leaves
the first key orphaned in the connections set, so a subsequent client-removed
event for its source client does not remove it — the cache still holds a
connection whose source client is the removed client. -/
theorem c5_counterexample :
    ConnKey.mk 5 1 6 1 ∈
      (applyEvents ⟨1, 2, 4⟩ PatchState.empty
        [.clientAdded 5 0 (-1) "SrcA", .clientAdded 6 0 (-1) "DstB",
         .connectionAdded 1 "5:1:6:1", .connectionAdded 1 "7:1:8:1",
         .clientRemoved 5]).connections := by decide

/-! ### C3: driver selection -/

theorem firstPreferredDriver_of_first_match :
    ∀ (ps1 : List String) (p : String) (ps2 names : List String) (c : String),
    (∀ q ∈ ps1, ∀ x ∈ names, eqCI x q = false) →
    names.find? (fun x => eqCI x p) = some c →
    firstPreferredDriver (ps1 ++ p :: ps2) names = some c := by
  intro ps1
  induction ps1 with
  | nil =>
    intro p ps2 names c _ hf
    simp [firstPreferredDriver, hf]
  | cons q qs ih =>
    intro p ps2 names c hnone hf
    have hq : names.find? (fun x => eqCI x q) = none :=
      List.find?_eq_none.mpr (fun x hx => by simp [hnone q (by simp) x hx])
    simp only [List.cons_append, firstPreferredDriver, hq]
    exact ih p ps2 names c (fun r hr x hx => hnone r (List.mem_cons_of_mem q hr) x hx) hf

theorem firstPreferredDriver_eq_none :
    ∀ (preferred names : List String),
    (∀ q ∈ preferred, ∀ x ∈ names, eqCI x q = false) →
    firstPreferredDriver preferred names = none := by
  intro preferred
  induction preferred with
  | nil => intro names _; rfl
  | cons q qs ih =>
    intro names hnone
    have hq : names.find? (fun x => eqCI x q) = none :=
      List.find?_eq_none.mpr (fun x hx => by simp [hnone q (by simp) x hx])
    simp only [firstPreferredDriver, hq]
    exact ih names (fun r hr x hx => hnone r (List.mem_cons_of_mem q hr) x hx)

/-- C3: driver selection is a pure function of the forced driver, the
preference list and the enumerated available names: the forced driver is
chosen on a (case-insensitive) match against the available set; with a forced
driver and no match, a `CarlaHostError` carrying the detected driver list is
raised; with no forced driver, the first preference with a match is chosen,
else the first enumerated name; an error occurs only in the forced-and-absent
case.  The last clause shows the same fail-immediately behaviour in
`_ensure_engine`: a forced driver absent from the available set raises before
any engine init is attempted, reporting the available alternatives. -/
theorem c3_driver_selection (forced : Option String) (preferred names : List String)
    (orcE : EngineOracle) (st : BackendState) (hne : names ≠ []) :
    (∀ f c, forced = some f → names.find? (fun x => eqCI x f) = some c →
      selectDriver forced preferred names = .ok (some c) ∧ c ∈ names ∧ eqCI c f = true) ∧
    (∀ f, forced = some f → (∀ x ∈ names, eqCI x f = false) →
      selectDriver forced preferred names =
        .error (.carlaHost (.driverNotAvailable f names))) ∧
    (∀ ps1 p ps2 c, forced = none → preferred = ps1 ++ p :: ps2 →
      (∀ q ∈ ps1, ∀ x ∈ names, eqCI x q = false) →
      names.find? (fun x => eqCI x p) = some c →
      selectDriver forced preferred names = .ok (some c) ∧ c ∈ names ∧ eqCI c p = true) ∧
    (forced = none → (∀ q ∈ preferred, ∀ x ∈ names, eqCI x q = false) →
      selectDriver forced preferred names = .ok (some (names.headD ""))) ∧
    (∀ e, selectDriver forced preferred names = .error e →
      ∃ f, forced = some f ∧ (∀ x ∈ names, eqCI x f = false) ∧
        e = .carlaHost (.driverNotAvailable f names)) ∧
    (∀ f, st.available = true → st.hostPresent = true → st.engineRunning = false →
      st.forcedDriver = some f → orcE.availableDrivers ≠ [] →
      f ∉ orcE.availableDrivers →
      (ensureEngine orcE st).2 =
        .error (.carlaHost (.driverNotAvailable f orcE.availableDrivers))) := by
  refine ⟨?_, ?_, ?_, ?_, ?_, ?_⟩
  · intro f c hforced hfind
    subst hforced
    refine ⟨?_, List.mem_of_find?_eq_some hfind, by simpa using List.find?_some hfind⟩
    simp [selectDriver, hne, hfind]
  · intro f hforced hmiss
    subst hforced
    have hnone : names.find? (fun x => eqCI x f) = none :=
      List.find?_eq_none.mpr (fun x hx => by simp [hmiss x hx])
    simp [selectDriver, hne, hnone]
  · intro ps1 p ps2 c hforced hpref hmiss hfind
    subst hforced
    subst hpref
    refine ⟨?_, List.mem_of_find?_eq_some hfind, by simpa using List.find?_some hfind⟩
    simp [selectDriver, hne, firstPreferredDriver_of_first_match ps1 p ps2 names c hmiss hfind]
  · intro hforced hmiss
    subst hforced
    simp [selectDriver, hne, firstPreferredDriver_eq_none preferred names hmiss]
  · intro e herr
    unfold selectDriver at herr
    rw [if_neg hne] at herr
    cases hforced : forced with
    | none => simp only [hforced] at herr; exact absurd herr (by simp)
    | some f =>
      simp only [hforced] at herr
      cases hfind : names.find? (fun x => eqCI x f) with
      | some c =>
        simp only [hfind] at herr
        exact absurd herr (by simp)
      | none =>
        simp only [hfind] at herr
        refine ⟨f, rfl, fun x hx => ?_, by injection herr with h; exact h.symm⟩
        have := List.find?_eq_none.mp hfind x hx
        simpa using this
  · intro f hav hhost hrun hforced hne2 hmem
    unfold ensureEngine
    rw [if_neg (by simp [hav, hhost]), if_neg (by simp [hrun]), if_neg hne2]
    simp only [hforced]
    rw [if_neg hmem]

/-- C3 witness: the selection theorem applied to a concrete forced driver that
matches case-insensitively. -/
theorem c3_driver_selection_witness :
    (["JACK", "ALSA"] : List String) ≠ [] ∧
    selectDriver (some "jack") ["Dummy"] ["JACK", "ALSA"] = .ok (some "JACK") ∧
    (ensureEngine engineOrcJack { baseState with forcedDriver := some "Pulse" }).2 =
      .error (.carlaHost (.driverNotAvailable "Pulse" ["JACK"])) :=
  ⟨by decide,
   ((c3_driver_selection (some "jack") ["Dummy"] ["JACK", "ALSA"] engineOrcJack
      { baseState with forcedDriver := some "Pulse" } (by decide)).1
     "jack" "JACK" rfl (by decide)).1,
   (c3_driver_selection (some "jack") ["Dummy"] ["JACK", "ALSA"] engineOrcJack
      { baseState with forcedDriver := some "Pulse" } (by decide)).2.2.2.2.2
     "Pulse" rfl rfl rfl rfl (by decide) (by decide)⟩

/-! ### Parameter-cache lemmas -/

theorem map_id_of_no_match (pid : Int) (v : ℚ) :
    ∀ (l : List ParamSnapshot), (∀ q ∈ l, q.identifier ≠ pid) →
    l.map (fun p => if p.identifier = pid then { p with value := v } else p) = l := by
  intro l
  induction l with
  | nil => intro _; rfl
  | cons p rest ih =>
    intro h
    simp only [List.map_cons]
    rw [if_neg (h p (by simp)), ih (fun q hq => h q (List.mem_cons_of_mem p hq))]

theorem updateParamValue_of_not_mem (pid : Int) (v : ℚ) :
    ∀ (l : List ParamSnapshot), (∀ q ∈ l, q.identifier ≠ pid) →
    updateParamValue pid v l = l := by
  intro l
  induction l with
  | nil => intro _; rfl
  | cons p rest ih =>
    intro h
    simp only [updateParamValue]
    rw [if_neg (h p (by simp)), ih (fun q hq => h q (List.mem_cons_of_mem p hq))]

/-- With duplicate-free identifiers (which `_collect_parameters` guarantees by
numbering 0..count-1), the first-match update loop acts as a pointwise map. -/
theorem updateParamValue_eq_map (pid : Int) (v : ℚ) :
    ∀ (l : List ParamSnapshot), (l.map (fun p => p.identifier)).Nodup →
    updateParamValue pid v l =
      l.map (fun p => if p.identifier = pid then { p with value := v } else p) := by
  intro l
  induction l with
  | nil => intro _; rfl
  | cons p rest ih =>
    intro hnodup
    simp only [List.map_cons, List.nodup_cons] at hnodup
    simp only [updateParamValue, List.map_cons]
    by_cases hp : p.identifier = pid
    · rw [if_pos hp, if_pos hp]
      have : ∀ q ∈ rest, q.identifier ≠ pid := by
        intro q hq he
        exact hnodup.1 (hp ▸ he ▸ List.mem_map_of_mem (fun r => r.identifier) hq)
      rw [map_id_of_no_match pid v rest this]
    · rw [if_neg hp, if_neg hp, ih hnodup.2]

theorem resolveScan_eq_error (s : String) (index : Option Int) :
    ∀ (params : List ParamSnapshot),
    (∀ p ∈ params, s ≠ p.name ∧ s ≠ p.displayName ∧
      (∀ j, index = some j → p.identifier ≠ j)) →
    resolveScan s index params = .error (.carlaHost (.unknownParameter s)) := by
  intro params
  induction params with
  | nil => intro _; rfl
  | cons p rest ih =>
    intro h
    obtain ⟨hn, hd, hj⟩ := h p (by simp)
    have hrest := fun q hq => h q (List.mem_cons_of_mem p hq)
    cases index with
    | none =>
      simp only [resolveScan]
      rw [if_neg (by simp [hn, hd])]
      exact ih hrest
    | some j =>
      simp only [resolveScan]
      rw [if_neg (by simp [hn, hd]), if_neg (hj j rfl)]
      exact ih hrest

/-! ### C8: optimistic parameter cache -/

/-- C8: for a loaded session and an identifier that resolves to a cached
parameter, `set_parameter` immediately sets that snapshot's value to the given
value in the cached table; the returned table is that updated cache, every
other field of the snapshot and every other snapshot are unchanged, no other
state field changes, and a subsequent `status()` read reflects the value. -/
theorem c8_optimistic_cache (st : BackendState) (orc : SetParamOracle)
    (ident : ParamIdent) (v : ℚ) (pid : Int)
    (hplugin : st.pluginId ≠ none) (hhost : st.hostPresent = true)
    (hset : orc.setValueResult = .ok ()) (hinfo : orc.pluginInfoResult = .ok ())
    (hres : resolveParameterIdentifier st.parameters ident = .ok pid)
    ( _hmem : pid ∈ st.parameters.map (fun p => p.identifier))
    (hnodup : (st.parameters.map (fun p => p.identifier)).Nodup) :
    setParameter orc st ident v =
      ({ st with parameters := mapSetValue pid v st.parameters },
       .ok (mapSetValue pid v st.parameters)) ∧
    statusParameters (setParameter orc st ident v).1 =
      (mapSetValue pid v st.parameters).map ParamSnapshot.toStatusEntry := by
  have hcond : (st.pluginId = none || !st.hostPresent) = false := by
    simp [hhost]
    intro h
    exact absurd h hplugin
  have hmain : setParameter orc st ident v =
      ({ st with parameters := mapSetValue pid v st.parameters },
       .ok (mapSetValue pid v st.parameters)) := by
    unfold setParameter
    rw [if_neg (by simp [hcond])]
    rw [hres, hset, hinfo]
    show ({ st with parameters := updateParamValue pid v st.parameters },
        Except.ok (updateParamValue pid v st.parameters)) = _
    rw [updateParamValue_eq_map pid v st.parameters hnodup]
    rfl
  refine ⟨hmain, ?_⟩
  rw [hmain]
  unfold statusParameters
  rw [if_neg hplugin]

/-- C8 witness: the scenario table `A, B, C`; setting `"B"` to `6` updates
only the `B` snapshot's value. -/
theorem c8_optimistic_cache_witness :
    resolveParameterIdentifier
        [sampleParam 0 "A", sampleParam 1 "B", sampleParam 2 "C"] (.str "B") = .ok 1 ∧
    setParameter ⟨.ok (), .ok ()⟩
        { baseState with pluginId := some 0, parameters := [sampleParam 0 "A", sampleParam 1 "B", sampleParam 2 "C"] }
        (.str "B") 6 =
      ({ baseState with pluginId := some 0, parameters := mapSetValue 1 6 [sampleParam 0 "A", sampleParam 1 "B", sampleParam 2 "C"] },
       .ok (mapSetValue 1 6 [sampleParam 0 "A", sampleParam 1 "B", sampleParam 2 "C"])) := by
  constructor
  · decide
  · exact (c8_optimistic_cache
      { baseState with pluginId := some 0, parameters := [sampleParam 0 "A", sampleParam 1 "B", sampleParam 2 "C"] }
      ⟨.ok (), .ok ()⟩ (.str "B") 6 1
      (by decide) (by decide) (by decide) (by decide) (by decide) (by decide) (by decide)).1

/-! ### C1: stale parameter identifiers across sessions -/

/-- C1 (amended): a string identifier that matches no name, display name or
numeric id of the current table raises `CarlaHostError` (ParameterError), but
an integer identifier is returned by `_resolve_parameter_identifier` without
any validation, so `set_parameter` with a stale integer id absent from the
new table does not raise: the raw id is forwarded to the engine and the
cached table is returned unchanged. -/
theorem c1_stale_identifiers (st : BackendState) (orc : SetParamOracle)
    (s : String) (i : Int) (v : ℚ)
    (hplugin : st.pluginId ≠ none) (hhost : st.hostPresent = true) :
    ((∀ p ∈ st.parameters, s ≠ p.name ∧ s ≠ p.displayName ∧
        (∀ j, parseInt? s = some j → p.identifier ≠ j)) →
      setParameter orc st (.str s) v =
        (st, .error (.carlaHost (.unknownParameter s)))) ∧
    (orc.setValueResult = .ok () → orc.pluginInfoResult = .ok () →
      (∀ p ∈ st.parameters, p.identifier ≠ i) →
      setParameter orc st (.int i) v = (st, .ok st.parameters)) := by
  have hcond : (st.pluginId = none || !st.hostPresent) = false := by
    simp [hhost]
    intro h
    exact absurd h hplugin
  constructor
  · intro hmiss
    unfold setParameter
    rw [if_neg (by simp [hcond])]
    have : resolveParameterIdentifier st.parameters (.str s) =
        .error (.carlaHost (.unknownParameter s)) :=
      resolveScan_eq_error s (parseInt? s) st.parameters hmiss
    rw [this]
  · intro hset hinfo hmiss
    unfold setParameter
    rw [if_neg (by simp [hcond])]
    show (match resolveParameterIdentifier st.parameters (.int i) with
      | .error e => (st, Except.error e)
      | .ok paramId => _) = _
    simp only [resolveParameterIdentifier, hset, hinfo]
    rw [updateParamValue_of_not_mem i v st.parameters hmiss]

/-- C1 counterexample to the claim as stated: a full load→unload→load run in
which the first session's table has ids 0 and 1 and the second session's
table has only id 0; `set_parameter` with the stale integer id 1 does not
raise a ParameterError — it returns the unchanged table. -/
theorem c1_counterexample :
    ((loadPlugin (loadOracleParams [sampleParam 0 "Gain", sampleParam 1 "Tone"])
        baseState []).1.parameters.map (fun p => p.identifier) = [0, 1]) ∧
    ((loadPlugin (loadOracleParams [sampleParam 0 "Cutoff"])
        (unload unloadOracleOk
          (loadPlugin (loadOracleParams [sampleParam 0 "Gain", sampleParam 1 "Tone"])
            baseState []).1).1 []).1.parameters.map (fun p => p.identifier) = [0]) ∧
    (setParameter ⟨.ok (), .ok ()⟩
        (loadPlugin (loadOracleParams [sampleParam 0 "Cutoff"])
          (unload unloadOracleOk
            (loadPlugin (loadOracleParams [sampleParam 0 "Gain", sampleParam 1 "Tone"])
              baseState []).1).1 []).1
        (.int 1) 5).2 = .ok [sampleParam 0 "Cutoff"] := by decide

/-- C1 witness for the amended theorem: in the second session's state, the
stale string name raises and the stale integer id passes through. -/
theorem c1_stale_identifiers_witness :
    setParameter ⟨.ok (), .ok ()⟩
        { baseState with pluginId := some 0, parameters := [sampleParam 0 "Cutoff"] }
        (.str "Tone") 5 =
      ({ baseState with pluginId := some 0, parameters := [sampleParam 0 "Cutoff"] },
       .error (.carlaHost (.unknownParameter "Tone"))) ∧
    setParameter ⟨.ok (), .ok ()⟩
        { baseState with pluginId := some 0, parameters := [sampleParam 0 "Cutoff"] }
        (.int 1) 5 =
      ({ baseState with pluginId := some 0, parameters := [sampleParam 0 "Cutoff"] },
       .ok [sampleParam 0 "Cutoff"]) :=
  ⟨(c1_stale_identifiers
      { baseState with pluginId := some 0, parameters := [sampleParam 0 "Cutoff"] }
      ⟨.ok (), .ok ()⟩ "Tone" 1 5 (by decide) (by decide)).1 (by decide),
   (c1_stale_identifiers
      { baseState with pluginId := some 0, parameters := [sampleParam 0 "Cutoff"] }
      ⟨.ok (), .ok ()⟩ "Tone" 1 5 (by decide) (by decide)).2 rfl rfl (by decide)⟩

/-! ### C10: note_off never raises CarlaHostError -/

theorem sendMidiNote_unhosted (orc : NoteOracle) (st : BackendState)
    (h : st.pluginId = none ∨ st.supportsMidi = false) :
    sendMidiNote orc st = (st, .error (.carlaHost .noPluginHosted)) ∨
    sendMidiNote orc st = (st, .error (.carlaHost .notAcceptMidi)) := by
  unfold sendMidiNote
  by_cases h1 : (!st.hostPresent || decide (st.pluginId = none)) = true
  · left
    rw [if_pos h1]
  · right
    rw [if_neg h1]
    have h2 : st.supportsMidi = false := by
      rcases h with h | h
      · exact absurd (by simp [h]) h1
      · exact h
    rw [if_pos (by simp [h2])]

/-- C10: `note_off` never surfaces a `CarlaHostError`: whatever the state and
host behaviour, its result is never that error, and under the two conditions
that make the underlying send raise (no plugin hosted, or the plugin not
accepting MIDI) `note_off` returns normally while `note_on` propagates the
corresponding `CarlaHostError`. -/
theorem c10_note_off_swallows_carla_error (orc : NoteOracle) (st : BackendState)
    (note : Int) :
    (∀ m, (noteOff orc st note).2 ≠ .error (.carlaHost m)) ∧
    ((st.pluginId = none ∨ st.supportsMidi = false) →
      (noteOff orc st note).2 = .ok () ∧
      ((noteOn orc st note).2 = .error (.carlaHost .noPluginHosted) ∨
       (noteOn orc st note).2 = .error (.carlaHost .notAcceptMidi))) := by
  constructor
  · intro m
    unfold noteOff
    rcases hr : sendMidiNote orc (cancelTimer note st) with ⟨st', r⟩
    match r with
    | .ok _ => simp
    | .error (.carlaHost _) => simp
    | .error .fileNotFound => simp
    | .error .other => simp
  · intro h
    have h' : (cancelTimer note st).pluginId = none ∨
        (cancelTimer note st).supportsMidi = false := h
    constructor
    · unfold noteOff
      rcases sendMidiNote_unhosted orc (cancelTimer note st) h' with hs | hs
      · rw [hs]
      · rw [hs]
    · unfold noteOn
      rcases sendMidiNote_unhosted orc (cancelTimer note st) h' with hs | hs
      · left
        rw [hs]
      · right
        rw [hs]

/-- C10 witness: with no plugin hosted, `note_off` returns normally and
`note_on` raises. -/
theorem c10_note_off_swallows_carla_error_witness :
    (baseState.pluginId = none ∨ baseState.supportsMidi = false) ∧
    (noteOff ⟨routingOrcEmpty, routingOrcEmpty, .ok ()⟩ baseState 60).2 = .ok () ∧
    ((noteOn ⟨routingOrcEmpty, routingOrcEmpty, .ok ()⟩ baseState 60).2 =
        .error (.carlaHost .noPluginHosted) ∨
     (noteOn ⟨routingOrcEmpty, routingOrcEmpty, .ok ()⟩ baseState 60).2 =
        .error (.carlaHost .notAcceptMidi)) :=
  ⟨Or.inl rfl,
   ((c10_note_off_swallows_carla_error ⟨routingOrcEmpty, routingOrcEmpty, .ok ()⟩
      baseState 60).2 (Or.inl rfl)).1,
   ((c10_note_off_swallows_carla_error ⟨routingOrcEmpty, routingOrcEmpty, .ok ()⟩
      baseState 60).2 (Or.inl rfl)).2⟩

/-! ### C9: unload never raises and always resets local state -/

/-- C9: `unload` never raises for any engine behaviour; when the backend is
available it leaves the local session fully reset (no plugin id, empty table,
MIDI flag and both routed flags false); when nothing is loaded it issues no
engine removal calls; and when nothing is loaded and the local state is
already empty it leaves the state exactly unchanged. -/
theorem c9_unload_best_effort (orc : UnloadOracle) (st : BackendState) :
    ((unload orc st).2.2 = .ok ()) ∧
    (st.available = true → st.hostPresent = true →
      (unload orc st).1.pluginId = none ∧
      (unload orc st).1.parameters = [] ∧
      (unload orc st).1.supportsMidi = false ∧
      (unload orc st).1.midiRouted = false ∧
      (unload orc st).1.audioRouted = false) ∧
    (st.pluginId = none → (unload orc st).2.1 = []) ∧
    (st.pluginId = none → st.pluginPathSet = false → st.parameters = [] →
      st.uiVisible = false → st.supportsMidi = false → st.midiRouted = false →
      st.midiWarningEmitted = false → st.audioRouted = false →
      st.audioWarningEmitted = false → st.noteTimers = [] →
      (unload orc st).1 = st) := by
  refine ⟨?_, ?_, ?_, ?_⟩
  · unfold unload
    split
    · rfl
    · split <;> rfl
  · intro h1 h2
    unfold unload
    rw [if_neg (by simp [h1, h2])]
    cases hp : st.pluginId with
    | none => exact ⟨rfl, rfl, rfl, rfl, rfl⟩
    | some pid => exact ⟨rfl, rfl, rfl, rfl, rfl⟩
  · intro hp
    unfold unload
    split
    · rfl
    · split
      · rfl
      · rename_i heq
        rw [hp] at heq
        exact Option.noConfusion heq
  · intro hp h4 h5 h6 h7 h8 h9 h10 h11 h12
    unfold unload
    split
    · rfl
    · split
      · rename_i heq
        show resetSessionFields st = st
        unfold resetSessionFields
        obtain ⟨av, host, warns, er, ec, dn, fd, pd, pid, pps, params, ui, sm, mr,
          ar, mw, aw, patch, nt⟩ := st
        simp only at hp h4 h5 h6 h7 h8 h9 h10 h11 h12
        subst hp h4 h5 h6 h7 h8 h9 h10 h11 h12
        rfl
      · rename_i heq
        rw [hp] at heq
        exact Option.noConfusion heq

/-- C9 witness: unloading the freshly constructed backend is a no-op that
returns normally, issues no removal calls and leaves the state unchanged. -/
theorem c9_unload_best_effort_witness :
    baseState.pluginId = none ∧
    (unload unloadOracleOk baseState).2.2 = .ok () ∧
    (unload unloadOracleOk baseState).2.1 = [] ∧
    (unload unloadOracleOk baseState).1 = baseState :=
  ⟨rfl,
   (c9_unload_best_effort unloadOracleOk baseState).1,
   (c9_unload_best_effort unloadOracleOk baseState).2.2.1 rfl,
   (c9_unload_best_effort unloadOracleOk baseState).2.2.2 rfl rfl rfl rfl rfl rfl
     rfl rfl rfl rfl⟩

/-! ### Routing loop lemmas -/

theorem mem_insertDescBy {α : Type} (key : α → Int × Int) (a x : α) :
    ∀ (l : List α), x ∈ insertDescBy key a l ↔ x = a ∨ x ∈ l := by
  intro l
  induction l with
  | nil => simp [insertDescBy]
  | cons b bs ih =>
    simp only [insertDescBy]
    by_cases h : lexGt (key a) (key b) = true
    · rw [if_pos h]
      simp [List.mem_cons]
    · rw [if_neg h]
      simp only [List.mem_cons, ih]
      tauto

theorem mem_pySortDesc {α : Type} (key : α → Int × Int) (x : α) (l : List α) :
    x ∈ pySortDesc key l ↔ x ∈ l := by
  have aux : ∀ (l acc : List α),
      x ∈ l.foldl (fun acc a => insertDescBy key a acc) acc ↔ x ∈ acc ∨ x ∈ l := by
    intro l
    induction l with
    | nil => simp
    | cons a as ih =>
      intro acc
      simp only [List.foldl_cons]
      rw [ih, mem_insertDescBy]
      simp [List.mem_cons]
      tauto
  rw [pySortDesc, aux]
  simp

theorem selectAudioTargets_sound (patch : PatchState) (t : Int × Int)
    (ht : t ∈ selectAudioTargets patch) :
    ((dictGet t.1 patch.clients).getD emptyClient).pluginId < 0 ∧
    ∃ e ∈ patch.ports, e.1 = t.1 ∧
      ∃ p, (t.2, p) ∈ e.2 ∧ p.isInput = true ∧ p.isAudio = true := by
  unfold selectAudioTargets at ht
  rcases List.mem_map.mp ht with ⟨cand, hcand, hproj⟩
  rw [mem_pySortDesc] at hcand
  unfold audioTargetCandidates at hcand
  rcases List.mem_flatMap.mp hcand with ⟨e, he, hin⟩
  by_cases hplug : 0 ≤ ((dictGet e.1 patch.clients).getD emptyClient).pluginId
  · rw [if_pos hplug] at hin
    exact absurd hin (List.not_mem_nil cand)
  · rw [if_neg hplug] at hin
    rcases List.mem_map.mp hin with ⟨pr, hpr, hmk⟩
    have hfil := List.mem_filter.mp hpr
    have hgroup : cand.groupId = e.1 := by rw [← hmk]
    have hport : cand.portId = pr.1 := by rw [← hmk]
    have hclient : cand.client = (dictGet e.1 patch.clients).getD emptyClient := by
      rw [← hmk]
    constructor
    · rw [← hproj]
      show ((dictGet cand.groupId patch.clients).getD emptyClient).pluginId < 0
      rw [hgroup]
      exact lt_of_not_le hplug
    · refine ⟨e, he, ?_, pr.2, ?_, ?_, ?_⟩
      · rw [← hproj]
        exact hgroup.symm
      · have : (t.2 : Int) = pr.1 := by rw [← hproj]; exact hport
        rw [this]
        exact hfil.1
      · have := hfil.2
        simp only [Bool.and_eq_true] at this
        exact this.1
      · have := hfil.2
        simp only [Bool.and_eq_true] at this
        exact this.2

theorem audioConnectLoop_spec (orc : RoutingOracle) (pg : Int)
    (outs : List (Int × PortInfo)) (tgts : List (Int × Int)) :
    ∀ (idxs : List Nat) (cn : Nat) (succ : Bool) (st : BackendState)
      (calls : List ConnKey),
    (audioConnectLoop orc pg outs tgts idxs cn succ st calls).2.1.patch = st.patch ∧
    (audioConnectLoop orc pg outs tgts idxs cn succ st calls).2.2 =
      calls ++ ((idxs.map (audioPairAt pg outs tgts)).filter
        (fun k => !decide (k ∈ st.patch.connections))) := by
  intro idxs
  induction idxs with
  | nil =>
    intro cn succ st calls
    exact ⟨rfl, by simp [audioConnectLoop]⟩
  | cons i rest ih =>
    intro cn succ st calls
    simp only [audioConnectLoop, List.map_cons]
    by_cases hmem : audioPairAt pg outs tgts i ∈ st.patch.connections
    · rw [if_pos hmem]
      rw [List.filter_cons_of_neg (by simp [hmem])]
      exact ih cn succ st calls
    · rw [if_neg hmem]
      rw [List.filter_cons_of_pos (by simp [hmem])]
      cases hc : orc.connectResult cn with
      | ok b =>
        have h := ih (cn + 1) (succ || b) st (calls ++ [audioPairAt pg outs tgts i])
        refine ⟨h.1, ?_⟩
        rw [h.2]
        simp
      | err =>
        have h := ih (cn + 1) succ
          { st with warnings := st.warnings ++
              [.audioConnectFailed (audioPairAt pg outs tgts i).srcPort
                (audioPairAt pg outs tgts i).dstGroup
                (audioPairAt pg outs tgts i).dstPort] }
          (calls ++ [audioPairAt pg outs tgts i])
        refine ⟨h.1, ?_⟩
        rw [h.2]
        simp

theorem midiConnectInner_spec (orc : RoutingOracle) (pg sg sp : Int) :
    ∀ (inputs : List (Int × PortInfo)) (cn : Nat) (succ : Bool) (st : BackendState)
      (calls : List ConnKey),
    (midiConnectInner orc pg sg sp inputs cn succ st calls).2.2.1.patch = st.patch ∧
    (midiConnectInner orc pg sg sp inputs cn succ st calls).2.2.2 =
      calls ++ ((inputs.filter
          (fun p => !decide (ConnKey.mk sg sp pg p.1 ∈ st.patch.connections))).map
        (fun p => ConnKey.mk sg sp pg p.1)) := by
  intro inputs
  induction inputs with
  | nil =>
    intro cn succ st calls
    exact ⟨rfl, by simp [midiConnectInner]⟩
  | cons pr rest ih =>
    intro cn succ st calls
    simp only [midiConnectInner]
    by_cases hmem : ConnKey.mk sg sp pg pr.1 ∈ st.patch.connections
    · rw [if_pos hmem]
      rw [List.filter_cons_of_neg (by simp [hmem])]
      exact ih cn succ st calls
    · rw [if_neg hmem]
      rw [List.filter_cons_of_pos (by simp [hmem])]
      cases hc : orc.connectResult cn with
      | ok b =>
        have h := ih (cn + 1) (succ || b) st (calls ++ [ConnKey.mk sg sp pg pr.1])
        refine ⟨h.1, ?_⟩
        rw [h.2]
        simp
      | err =>
        have h := ih (cn + 1) succ
          { st with warnings := st.warnings ++ [.midiConnectFailed sg sp pg pr.1] }
          (calls ++ [ConnKey.mk sg sp pg pr.1])
        refine ⟨h.1, ?_⟩
        rw [h.2]
        simp

theorem midiConnectOuter_spec (orc : RoutingOracle) (pg : Int)
    (inputs : List (Int × PortInfo)) :
    ∀ (sources : List (Int × Int)) (cn : Nat) (succ : Bool) (st : BackendState)
      (calls : List ConnKey),
    (midiConnectOuter orc pg inputs sources cn succ st calls).2.1.patch = st.patch ∧
    (midiConnectOuter orc pg inputs sources cn succ st calls).2.2 =
      calls ++ sources.flatMap (fun src =>
        if src.1 = pg then []
        else
          (inputs.filter
              (fun p => !decide (ConnKey.mk src.1 src.2 pg p.1 ∈ st.patch.connections))).map
            (fun p => ConnKey.mk src.1 src.2 pg p.1)) := by
  intro sources
  induction sources with
  | nil =>
    intro cn succ st calls
    exact ⟨rfl, by simp [midiConnectOuter]⟩
  | cons src rest ih =>
    intro cn succ st calls
    rcases src with ⟨sg, sp⟩
    simp only [midiConnectOuter, List.flatMap_cons]
    by_cases hsg : sg = pg
    · rw [if_pos hsg, if_pos (by exact hsg)]
      have h := ih cn succ st calls
      refine ⟨h.1, ?_⟩
      rw [h.2]
      simp
    · rw [if_neg hsg, if_neg (by exact hsg)]
      have hin := midiConnectInner_spec orc pg sg sp inputs cn succ st calls
      have h := ih (midiConnectInner orc pg sg sp inputs cn succ st calls).1
        (midiConnectInner orc pg sg sp inputs cn succ st calls).2.1
        (midiConnectInner orc pg sg sp inputs cn succ st calls).2.2.1
        (midiConnectInner orc pg sg sp inputs cn succ st calls).2.2.2
      refine ⟨by rw [h.1, hin.1], ?_⟩
      rw [h.2, hin.2, hin.1]
      simp

/-! ### C2: MIDI auto-routing connect calls -/

theorem midiRetryLoop_found (orc : RoutingOracle) (pid g : Int) (st : BackendState)
    (fuel rn : Nat) (prev : List (Int × PortInfo))
    (h5 : dictGet pid st.patch.pluginGroups = some g)
    (h7 : st.patch.connections.any (fun k => k.dstGroup = g) = false)
    (h6 : midiInputsOf st.patch g ≠ []) :
    midiRetryLoop orc pid (fuel + 1) rn prev st =
      (.found g (midiInputsOf st.patch g), st, rn) := by
  unfold midiRetryLoop
  simp only [h5]
  rw [if_neg (by simp [h7]), if_pos h6]

/-- Reduction of `_ensure_midi_routing` to its connect stage when the plugin
group, its MIDI inputs and at least one source are visible on the first scan
and nothing already targets the group. -/
theorem ensureMidiRouting_calls (orc : RoutingOracle) (st : BackendState)
    (pid g : Int)
    (h1 : st.midiRouted = false) (h2 : st.pluginId = some pid)
    (h3 : st.hostPresent = true) (h4 : st.supportsMidi = true)
    (h5 : dictGet pid st.patch.pluginGroups = some g)
    (h7 : st.patch.connections.any (fun k => k.dstGroup = g) = false)
    (h6 : midiInputsOf st.patch g ≠ [])
    (h8 : selectMidiSources st.patch ≠ []) :
    (ensureMidiRouting orc st).2.1 =
      midiPlannedCalls st.patch g (midiInputsOf st.patch g) := by
  unfold ensureMidiRouting
  rw [if_neg (by simp [h1])]
  simp only [h2]
  rw [if_neg (by simp [h3, h4])]
  rw [show (3 : Nat) = 2 + 1 from rfl,
    midiRetryLoop_found orc pid g st 2 0 [] h5 h7 h6]
  show (midiConnectStage orc g (midiInputsOf st.patch g) st).2.1 = _
  unfold midiConnectStage
  rw [if_neg h8]
  unfold midiFinish
  have hspec := midiConnectOuter_spec orc g (midiInputsOf st.patch g)
    (selectMidiSources st.patch) 0 false st []
  split
  · show (midiConnectOuter orc g (midiInputsOf st.patch g)
      (selectMidiSources st.patch) 0 false st []).2.2 = _
    rw [hspec.2]
    simp [midiPlannedCalls]
  · split
    · show (midiConnectOuter orc g (midiInputsOf st.patch g)
        (selectMidiSources st.patch) 0 false st []).2.2 = _
      rw [hspec.2]
      simp [midiPlannedCalls]
    · show (midiConnectOuter orc g (midiInputsOf st.patch g)
        (selectMidiSources st.patch) 0 false st []).2.2 = _
      rw [hspec.2]
      simp [midiPlannedCalls]

/-- C2 counterexample to the claim as stated: with two eligible sources, one
unmatched MIDI input and every connect call succeeding, the invocation issues
two `patchbay_connect` calls — the double loop has no break, so it does not
stop after the first successful connection. -/
theorem c2_counterexample :
    (ensureMidiRouting routingOrcEmpty midiScenarioState).2.1 =
      [⟨2, 1, 10, 1⟩, ⟨3, 1, 10, 1⟩] := by decide

/-- C2 (amended): when the plugin's group, its MIDI inputs and the scored
sources are visible on the first scan and no cached connection targets the
group, the invocation issues one connect call per (eligible source, MIDI
input) pair that is not already cached — every source except the plugin's own
group is tried against every MIDI input, with no early stop. -/
theorem c2_midi_routing_all_pairs (orc : RoutingOracle) (st : BackendState)
    (pid g : Int)
    (h1 : st.midiRouted = false) (h2 : st.pluginId = some pid)
    (h3 : st.hostPresent = true) (h4 : st.supportsMidi = true)
    (h5 : dictGet pid st.patch.pluginGroups = some g)
    (h7 : st.patch.connections.any (fun k => k.dstGroup = g) = false)
    (h6 : midiInputsOf st.patch g ≠ [])
    (h8 : selectMidiSources st.patch ≠ []) :
    (ensureMidiRouting orc st).2.1 =
      midiPlannedCalls st.patch g (midiInputsOf st.patch g) :=
  ensureMidiRouting_calls orc st pid g h1 h2 h3 h4 h5 h7 h6 h8

/-- C2 witness: the amended theorem applied to the two-keyboard scenario. -/
theorem c2_midi_routing_all_pairs_witness :
    midiInputsOf midiScenarioPatch 10 ≠ [] ∧
    selectMidiSources midiScenarioPatch ≠ [] ∧
    (ensureMidiRouting routingOrcEmpty midiScenarioState).2.1 =
      midiPlannedCalls midiScenarioPatch 10 (midiInputsOf midiScenarioPatch 10) :=
  ⟨by decide, by decide,
   c2_midi_routing_all_pairs routingOrcEmpty midiScenarioState 0 10
     rfl rfl rfl rfl (by decide) (by decide) (by decide) (by decide)⟩

/-! ### C6: audio auto-routing pairs -/

theorem audioRetryLoop_found (orc : RoutingOracle) (pid g : Int) (st : BackendState)
    (fuel rn : Nat) (prev : List (Int × PortInfo))
    (h5 : dictGet pid st.patch.pluginGroups = some g)
    (h6 : audioOutputsOf st.patch g ≠ [])
    (h7 : st.patch.connections.any
      (fun k => k.srcGroup = g && connTargetIsAudio st.patch k) = false) :
    audioRetryLoop orc pid (fuel + 1) rn prev st =
      (.found g (audioOutputsOf st.patch g), st, rn) := by
  unfold audioRetryLoop
  simp only [h5]
  rw [if_neg (by simp [h7]), if_pos h6]

theorem audioConnectLoop_length (orc : RoutingOracle) (pg : Int)
    (outs : List (Int × PortInfo)) (tgts : List (Int × Int)) (idxs : List Nat)
    (cn : Nat) (succ : Bool) (st : BackendState) (calls : List ConnKey) :
    (audioConnectLoop orc pg outs tgts idxs cn succ st calls).2.2.length ≤
      calls.length + idxs.length := by
  rw [(audioConnectLoop_spec orc pg outs tgts idxs cn succ st calls).2]
  rw [List.length_append]
  have h1 := List.length_filter_le
    (fun k => !decide (k ∈ st.patch.connections)) (idxs.map (audioPairAt pg outs tgts))
  rw [List.length_map] at h1
  omega

theorem audioConnectStage_le_two (orc : RoutingOracle) (g : Int)
    (outs : List (Int × PortInfo)) (st : BackendState) :
    (audioConnectStage orc g outs st).2.1.length ≤ 2 := by
  unfold audioConnectStage
  split
  · split
    · simp
    · simp
  · unfold audioFinish
    have h := audioConnectLoop_length orc g (pySortAsc (fun p => p.1) outs)
      (selectAudioTargets st.patch) (List.range (audioConnCount st.patch outs))
      0 false st []
    simp only [List.length_nil, List.length_range, Nat.zero_add] at h
    have h2 : audioConnCount st.patch outs ≤ 2 := min_le_right _ 2
    split
    · exact le_trans h h2
    · split
      · exact le_trans h h2
      · exact le_trans h h2

/-- Every invocation of `_ensure_audio_routing` issues at most two
`patchbay_connect` calls. -/
theorem ensureAudioRouting_le_two (orc : RoutingOracle) (st : BackendState) :
    (ensureAudioRouting orc st).2.1.length ≤ 2 := by
  unfold ensureAudioRouting
  split
  · simp
  · split
    · simp
    · split
      · simp
      · split
        · simp
        · simp
        · apply audioConnectStage_le_two

/-- Reduction of `_ensure_audio_routing` to its connect stage when the plugin
group and its audio outputs are visible on the first scan, no cached
connection already leaves the group for an audio port, and targets exist. -/
theorem ensureAudioRouting_calls (orc : RoutingOracle) (st : BackendState)
    (pid g : Int)
    (h1 : st.audioRouted = false) (h2 : st.pluginId = some pid)
    (h3 : st.hostPresent = true)
    (h5 : dictGet pid st.patch.pluginGroups = some g)
    (h6 : audioOutputsOf st.patch g ≠ [])
    (h7 : st.patch.connections.any
      (fun k => k.srcGroup = g && connTargetIsAudio st.patch k) = false)
    (h8 : selectAudioTargets st.patch ≠ []) :
    (ensureAudioRouting orc st).2.1 =
      audioPlannedCalls st.patch g (audioOutputsOf st.patch g) := by
  unfold ensureAudioRouting
  rw [if_neg (by simp [h1])]
  simp only [h2]
  rw [if_neg (by simp [h3])]
  rw [show (3 : Nat) = 2 + 1 from rfl,
    audioRetryLoop_found orc pid g st 2 0 [] h5 h6 h7]
  show (audioConnectStage orc g (audioOutputsOf st.patch g) st).2.1 = _
  unfold audioConnectStage
  rw [if_neg h8]
  unfold audioFinish
  have hspec := audioConnectLoop_spec orc g
    (pySortAsc (fun p => p.1) (audioOutputsOf st.patch g)) (selectAudioTargets st.patch)
    (List.range (audioConnCount st.patch (audioOutputsOf st.patch g))) 0 false st []
  split
  · show (audioConnectLoop orc g
      (pySortAsc (fun p => p.1) (audioOutputsOf st.patch g)) (selectAudioTargets st.patch)
      (List.range (audioConnCount st.patch (audioOutputsOf st.patch g))) 0 false st []).2.2 = _
    rw [hspec.2]
    simp [audioPlannedCalls]
  · split
    · show (audioConnectLoop orc g
        (pySortAsc (fun p => p.1) (audioOutputsOf st.patch g)) (selectAudioTargets st.patch)
        (List.range (audioConnCount st.patch (audioOutputsOf st.patch g))) 0 false st []).2.2 = _
      rw [hspec.2]
      simp [audioPlannedCalls]
    · show (audioConnectLoop orc g
        (pySortAsc (fun p => p.1) (audioOutputsOf st.patch g)) (selectAudioTargets st.patch)
        (List.range (audioConnCount st.patch (audioOutputsOf st.patch g))) 0 false st []).2.2 = _
      rw [hspec.2]
      simp [audioPlannedCalls]

/-- C6: audio auto-routing issues at most two connect calls in every
invocation; its scored targets are only input audio ports of clients with no
associated plugin id; and on a first-scan success the calls issued are
exactly the index-wise pairs of the ascending-sorted plugin outputs with the
scored targets, truncated to two, minus the pairs already cached. -/
theorem c6_audio_routing_pairs (orc : RoutingOracle) (st : BackendState)
    (pid g : Int)
    (h1 : st.audioRouted = false) (h2 : st.pluginId = some pid)
    (h3 : st.hostPresent = true)
    (h5 : dictGet pid st.patch.pluginGroups = some g)
    (h6 : audioOutputsOf st.patch g ≠ [])
    (h7 : st.patch.connections.any
      (fun k => k.srcGroup = g && connTargetIsAudio st.patch k) = false)
    (h8 : selectAudioTargets st.patch ≠ []) :
    (ensureAudioRouting orc st).2.1 =
      audioPlannedCalls st.patch g (audioOutputsOf st.patch g) ∧
    (∀ (orc' : RoutingOracle) (st' : BackendState),
      (ensureAudioRouting orc' st').2.1.length ≤ 2) ∧
    (∀ t ∈ selectAudioTargets st.patch,
      ((dictGet t.1 st.patch.clients).getD emptyClient).pluginId < 0 ∧
      ∃ e ∈ st.patch.ports, e.1 = t.1 ∧
        ∃ p, (t.2, p) ∈ e.2 ∧ p.isInput = true ∧ p.isAudio = true) :=
  ⟨ensureAudioRouting_calls orc st pid g h1 h2 h3 h5 h6 h7 h8,
   fun orc' st' => ensureAudioRouting_le_two orc' st',
   fun t ht => selectAudioTargets_sound st.patch t ht⟩

/-- C6 witness: the pairing theorem applied to the stereo scenario; the two
calls pair output ports 1 and 2 (ascending, although port 2 was registered
first) with the two playback inputs. -/
theorem c6_audio_routing_pairs_witness :
    audioOutputsOf audioScenarioPatch 10 ≠ [] ∧
    selectAudioTargets audioScenarioPatch ≠ [] ∧
    (ensureAudioRouting routingOrcEmpty audioScenarioState).2.1 =
      audioPlannedCalls audioScenarioPatch 10 (audioOutputsOf audioScenarioPatch 10) ∧
    audioPlannedCalls audioScenarioPatch 10 (audioOutputsOf audioScenarioPatch 10) =
      [⟨10, 1, 5, 1⟩, ⟨10, 2, 5, 2⟩] :=
  ⟨by decide, by decide,
   (c6_audio_routing_pairs routingOrcEmpty audioScenarioState 0 10
     rfl rfl rfl (by decide) (by decide) (by decide) (by decide)).1,
   by decide⟩

/-! ### C7: routing failures never raise -/

theorem ensureMidiRouting_ok (orc : RoutingOracle) (st : BackendState) :
    (ensureMidiRouting orc st).2.2 = .ok () := by
  unfold ensureMidiRouting
  split
  · rfl
  · split
    · rfl
    · split
      · rfl
      · split
        · rfl
        · rfl
        · unfold midiConnectStage
          split
          · rfl
          · unfold midiFinish
            split
            · rfl
            · split
              · rfl
              · rfl

theorem ensureAudioRouting_ok (orc : RoutingOracle) (st : BackendState) :
    (ensureAudioRouting orc st).2.2 = .ok () := by
  unfold ensureAudioRouting
  split
  · rfl
  · split
    · rfl
    · split
      · rfl
      · split
        · rfl
        · rfl
        · unfold audioConnectStage
          split
          · split
            · rfl
            · rfl
          · unfold audioFinish
            split
            · rfl
            · split
              · rfl
              · rfl

/-- Silent give-up of `_ensure_midi_routing`: group and inputs visible but no
MIDI source scored at all — the function returns with no connect call, no
warning, and the state untouched. -/
theorem ensureMidiRouting_silent (orc : RoutingOracle) (st : BackendState)
    (pid g : Int)
    (h1 : st.midiRouted = false) (h2 : st.pluginId = some pid)
    (h3 : st.hostPresent = true) (h4 : st.supportsMidi = true)
    (h5 : dictGet pid st.patch.pluginGroups = some g)
    (h7 : st.patch.connections.any (fun k => k.dstGroup = g) = false)
    (h6 : midiInputsOf st.patch g ≠ [])
    (h8 : selectMidiSources st.patch = []) :
    ensureMidiRouting orc st = (st, [], .ok ()) := by
  unfold ensureMidiRouting
  rw [if_neg (by simp [h1])]
  simp only [h2]
  rw [if_neg (by simp [h3, h4])]
  rw [show (3 : Nat) = 2 + 1 from rfl,
    midiRetryLoop_found orc pid g st 2 0 [] h5 h7 h6]
  show midiConnectStage orc g (midiInputsOf st.patch g) st = _
  unfold midiConnectStage
  rw [if_pos h8]

/-- Warned give-up of `_ensure_audio_routing`: group and outputs visible but
no audio target scored — one non-fatal warning is appended (first time only)
and no connect call is issued. -/
theorem ensureAudioRouting_noTarget (orc : RoutingOracle) (st : BackendState)
    (pid g : Int)
    (h1 : st.audioRouted = false) (h2 : st.pluginId = some pid)
    (h3 : st.hostPresent = true)
    (h5 : dictGet pid st.patch.pluginGroups = some g)
    (h6 : audioOutputsOf st.patch g ≠ [])
    (h7 : st.patch.connections.any
      (fun k => k.srcGroup = g && connTargetIsAudio st.patch k) = false)
    (h8 : selectAudioTargets st.patch = []) (h9 : st.audioWarningEmitted = false) :
    ensureAudioRouting orc st =
      ({ st with warnings := st.warnings ++ [.audioNoTarget],
                 audioWarningEmitted := true }, [], .ok ()) := by
  unfold ensureAudioRouting
  rw [if_neg (by simp [h1])]
  simp only [h2]
  rw [if_neg (by simp [h3])]
  rw [show (3 : Nat) = 2 + 1 from rfl,
    audioRetryLoop_found orc pid g st 2 0 [] h5 h6 h7]
  show audioConnectStage orc g (audioOutputsOf st.patch g) st = _
  unfold audioConnectStage
  rw [if_pos h8, if_pos (by simp [h9]), h2]

/-- C7 (amended): for every cache state and host behaviour both routing
functions return normally — a connect or refresh failure never escapes; when
the give-up happens after candidate selection the non-fatal warning is
appended (here: the no-audio-target path, first time only), but the give-up
paths before candidate selection — such as no scored MIDI source — return
silently with no warning. -/
theorem c7_routing_never_raises (orc : RoutingOracle) (st : BackendState) :
    ((ensureMidiRouting orc st).2.2 = .ok () ∧
     (ensureAudioRouting orc st).2.2 = .ok ()) ∧
    (∀ pid g, st.midiRouted = false → st.pluginId = some pid →
      st.hostPresent = true → st.supportsMidi = true →
      dictGet pid st.patch.pluginGroups = some g →
      st.patch.connections.any (fun k => k.dstGroup = g) = false →
      midiInputsOf st.patch g ≠ [] → selectMidiSources st.patch = [] →
      ensureMidiRouting orc st = (st, [], .ok ())) ∧
    (∀ pid g, st.audioRouted = false → st.pluginId = some pid →
      st.hostPresent = true → dictGet pid st.patch.pluginGroups = some g →
      audioOutputsOf st.patch g ≠ [] →
      st.patch.connections.any
        (fun k => k.srcGroup = g && connTargetIsAudio st.patch k) = false →
      selectAudioTargets st.patch = [] → st.audioWarningEmitted = false →
      ensureAudioRouting orc st =
        ({ st with warnings := st.warnings ++ [.audioNoTarget],
                   audioWarningEmitted := true }, [], .ok ())) :=
  ⟨⟨ensureMidiRouting_ok orc st, ensureAudioRouting_ok orc st⟩,
   fun pid g h1 h2 h3 h4 h5 h7 h6 h8 =>
     ensureMidiRouting_silent orc st pid g h1 h2 h3 h4 h5 h7 h6 h8,
   fun pid g h1 h2 h3 h5 h6 h7 h8 h9 =>
     ensureAudioRouting_noTarget orc st pid g h1 h2 h3 h5 h6 h7 h8 h9⟩

/-- C7 counterexample to the claim as stated: `_ensure_midi_routing` gives up
without making a connection (no MIDI source exists) yet appends no warning —
the warnings list stays empty and the routed flag stays false. -/
theorem c7_counterexample :
    (ensureMidiRouting routingOrcEmpty silentScenarioState).1.warnings = [] ∧
    (ensureMidiRouting routingOrcEmpty silentScenarioState).2.1 = [] ∧
    (ensureMidiRouting routingOrcEmpty silentScenarioState).1.midiRouted = false := by
  decide

/-- C7 witness: the amended theorem applied to the silent scenario. -/
theorem c7_routing_never_raises_witness :
    selectMidiSources silentScenarioPatch = [] ∧
    (ensureMidiRouting routingOrcEmpty silentScenarioState).2.2 = .ok () ∧
    ensureMidiRouting routingOrcEmpty silentScenarioState =
      (silentScenarioState, [], .ok ()) :=
  ⟨by decide,
   (c7_routing_never_raises routingOrcEmpty silentScenarioState).1.1,
   (c7_routing_never_raises routingOrcEmpty silentScenarioState).2.1 0 10
     rfl rfl rfl rfl (by decide) (by decide) (by decide) (by decide)⟩

/-! ### C4: routed flags are sticky -/

theorem refreshPatchbayState_flags (orc : RoutingOracle) (n : Nat) (st : BackendState) :
    (refreshPatchbayState orc n st).1.midiRouted = st.midiRouted ∧
    (refreshPatchbayState orc n st).1.audioRouted = st.audioRouted := by
  unfold refreshPatchbayState
  split
  · exact ⟨rfl, rfl⟩
  · split
    · exact ⟨rfl, rfl⟩
    · exact ⟨rfl, rfl⟩

theorem midiRetryLoop_flags (orc : RoutingOracle) (pid : Int) :
    ∀ (fuel rn : Nat) (prev : List (Int × PortInfo)) (st : BackendState),
    (midiRetryLoop orc pid fuel rn prev st).2.1.audioRouted = st.audioRouted ∧
    (st.midiRouted = true →
      (midiRetryLoop orc pid fuel rn prev st).2.1.midiRouted = true) := by
  intro fuel
  induction fuel with
  | zero => intro rn prev st; exact ⟨rfl, fun h => h⟩
  | succ n ih =>
    intro rn prev st
    unfold midiRetryLoop
    cases hg : dictGet pid st.patch.pluginGroups with
    | none =>
      simp only [hg]
      have hr := refreshPatchbayState_flags orc rn st
      have hi := ih (refreshPatchbayState orc rn st).2 prev (refreshPatchbayState orc rn st).1
      exact ⟨by rw [hi.1, hr.2], fun h => hi.2 (by rw [hr.1]; exact h)⟩
    | some g =>
      simp only [hg]
      split
      · exact ⟨rfl, fun _ => rfl⟩
      · split
        · exact ⟨rfl, fun h => h⟩
        · have hr := refreshPatchbayState_flags orc rn st
          have hi := ih (refreshPatchbayState orc rn st).2 (midiInputsOf st.patch g)
            (refreshPatchbayState orc rn st).1
          exact ⟨by rw [hi.1, hr.2], fun h => hi.2 (by rw [hr.1]; exact h)⟩

theorem audioRetryLoop_flags (orc : RoutingOracle) (pid : Int) :
    ∀ (fuel rn : Nat) (prev : List (Int × PortInfo)) (st : BackendState),
    (audioRetryLoop orc pid fuel rn prev st).2.1.midiRouted = st.midiRouted ∧
    (st.audioRouted = true →
      (audioRetryLoop orc pid fuel rn prev st).2.1.audioRouted = true) := by
  intro fuel
  induction fuel with
  | zero => intro rn prev st; exact ⟨rfl, fun h => h⟩
  | succ n ih =>
    intro rn prev st
    unfold audioRetryLoop
    cases hg : dictGet pid st.patch.pluginGroups with
    | none =>
      simp only [hg]
      have hr := refreshPatchbayState_flags orc rn st
      have hi := ih (refreshPatchbayState orc rn st).2 prev (refreshPatchbayState orc rn st).1
      exact ⟨by rw [hi.1, hr.1], fun h => hi.2 (by rw [hr.2]; exact h)⟩
    | some g =>
      simp only [hg]
      split
      · exact ⟨rfl, fun _ => rfl⟩
      · split
        · exact ⟨rfl, fun h => h⟩
        · have hr := refreshPatchbayState_flags orc rn st
          have hi := ih (refreshPatchbayState orc rn st).2 (audioOutputsOf st.patch g)
            (refreshPatchbayState orc rn st).1
          exact ⟨by rw [hi.1, hr.1], fun h => hi.2 (by rw [hr.2]; exact h)⟩

theorem midiConnectInner_routed (orc : RoutingOracle) (pg sg sp : Int) :
    ∀ (inputs : List (Int × PortInfo)) (cn : Nat) (succ : Bool) (st : BackendState)
      (calls : List ConnKey),
    (midiConnectInner orc pg sg sp inputs cn succ st calls).2.2.1.midiRouted = st.midiRouted ∧
    (midiConnectInner orc pg sg sp inputs cn succ st calls).2.2.1.audioRouted = st.audioRouted := by
  intro inputs
  induction inputs with
  | nil => intro cn succ st calls; exact ⟨rfl, rfl⟩
  | cons pr rest ih =>
    intro cn succ st calls
    simp only [midiConnectInner]
    split
    · exact ih cn succ st calls
    · cases orc.connectResult cn with
      | ok b => exact ih (cn + 1) (succ || b) st (calls ++ [ConnKey.mk sg sp pg pr.1])
      | err =>
        exact ih (cn + 1) succ _ (calls ++ [ConnKey.mk sg sp pg pr.1])

theorem midiConnectOuter_routed (orc : RoutingOracle) (pg : Int)
    (inputs : List (Int × PortInfo)) :
    ∀ (sources : List (Int × Int)) (cn : Nat) (succ : Bool) (st : BackendState)
      (calls : List ConnKey),
    (midiConnectOuter orc pg inputs sources cn succ st calls).2.1.midiRouted = st.midiRouted ∧
    (midiConnectOuter orc pg inputs sources cn succ st calls).2.1.audioRouted = st.audioRouted := by
  intro sources
  induction sources with
  | nil => intro cn succ st calls; exact ⟨rfl, rfl⟩
  | cons src rest ih =>
    intro cn succ st calls
    rcases src with ⟨sg, sp⟩
    simp only [midiConnectOuter]
    split
    · exact ih cn succ st calls
    · have hin := midiConnectInner_routed orc pg sg sp inputs cn succ st calls
      have h := ih (midiConnectInner orc pg sg sp inputs cn succ st calls).1
        (midiConnectInner orc pg sg sp inputs cn succ st calls).2.1
        (midiConnectInner orc pg sg sp inputs cn succ st calls).2.2.1
        (midiConnectInner orc pg sg sp inputs cn succ st calls).2.2.2
      exact ⟨by rw [h.1, hin.1], by rw [h.2, hin.2]⟩

theorem audioConnectLoop_routed (orc : RoutingOracle) (pg : Int)
    (outs : List (Int × PortInfo)) (tgts : List (Int × Int)) :
    ∀ (idxs : List Nat) (cn : Nat) (succ : Bool) (st : BackendState)
      (calls : List ConnKey),
    (audioConnectLoop orc pg outs tgts idxs cn succ st calls).2.1.midiRouted = st.midiRouted ∧
    (audioConnectLoop orc pg outs tgts idxs cn succ st calls).2.1.audioRouted = st.audioRouted := by
  intro idxs
  induction idxs with
  | nil => intro cn succ st calls; exact ⟨rfl, rfl⟩
  | cons i rest ih =>
    intro cn succ st calls
    simp only [audioConnectLoop]
    split
    · exact ih cn succ st calls
    · cases orc.connectResult cn with
      | ok b => exact ih (cn + 1) (succ || b) st (calls ++ [audioPairAt pg outs tgts i])
      | err => exact ih (cn + 1) succ _ (calls ++ [audioPairAt pg outs tgts i])

theorem midiConnectStage_audio (orc : RoutingOracle) (g : Int)
    (inputs : List (Int × PortInfo)) (st : BackendState) :
    (midiConnectStage orc g inputs st).1.audioRouted = st.audioRouted := by
  unfold midiConnectStage
  split
  · rfl
  · unfold midiFinish
    have h := midiConnectOuter_routed orc g inputs (selectMidiSources st.patch) 0 false st []
    split
    · exact h.2
    · split
      · exact h.2
      · exact h.2

theorem audioConnectStage_midi (orc : RoutingOracle) (g : Int)
    (outs : List (Int × PortInfo)) (st : BackendState) :
    (audioConnectStage orc g outs st).1.midiRouted = st.midiRouted := by
  unfold audioConnectStage
  split
  · split
    · rfl
    · rfl
  · unfold audioFinish
    have h := audioConnectLoop_routed orc g (pySortAsc (fun p => p.1) outs)
      (selectAudioTargets st.patch) (List.range (audioConnCount st.patch outs)) 0 false st []
    split
    · exact h.1
    · split
      · exact h.1
      · exact h.1

/-- `_ensure_midi_routing` returns immediately when the flag is already set. -/
theorem ensureMidiRouting_skip (orc : RoutingOracle) (st : BackendState)
    (h : st.midiRouted = true) : ensureMidiRouting orc st = (st, [], .ok ()) := by
  unfold ensureMidiRouting
  rw [if_pos (by simp [h])]

/-- `_ensure_audio_routing` returns immediately when the flag is already set. -/
theorem ensureAudioRouting_skip (orc : RoutingOracle) (st : BackendState)
    (h : st.audioRouted = true) : ensureAudioRouting orc st = (st, [], .ok ()) := by
  unfold ensureAudioRouting
  rw [if_pos (by simp [h])]

theorem ensureMidiRouting_audio (orc : RoutingOracle) (st : BackendState) :
    (ensureMidiRouting orc st).1.audioRouted = st.audioRouted := by
  unfold ensureMidiRouting
  split
  · rfl
  · split
    · rfl
    · rename_i pid hpid
      split
      · rfl
      · have hl := midiRetryLoop_flags orc pid 3 0 [] st
        split
        · rename_i st' rn heq
          rw [heq] at hl
          exact hl.1
        · rename_i st' rn heq
          rw [heq] at hl
          exact hl.1
        · rename_i g inputs st' rn heq
          rw [heq] at hl
          rw [midiConnectStage_audio]
          exact hl.1

theorem ensureAudioRouting_midi (orc : RoutingOracle) (st : BackendState) :
    (ensureAudioRouting orc st).1.midiRouted = st.midiRouted := by
  unfold ensureAudioRouting
  split
  · rfl
  · split
    · rfl
    · rename_i pid hpid
      split
      · rfl
      · have hl := audioRetryLoop_flags orc pid 3 0 [] st
        split
        · rename_i st' rn heq
          rw [heq] at hl
          exact hl.1
        · rename_i st' rn heq
          rw [heq] at hl
          exact hl.1
        · rename_i g outs st' rn heq
          rw [heq] at hl
          rw [audioConnectStage_midi]
          exact hl.1

theorem noteSendFinish_state (orc : NoteOracle) (st : BackendState) :
    (noteSendFinish orc st).1 = st := by
  unfold noteSendFinish
  cases orc.sendResult with
  | ok u => rfl
  | err => rfl

theorem noteAudioStage_flags (orc : NoteOracle) (st₁ : BackendState)
    (calls : List ConnKey) (res : Except PyError Unit) :
    (noteAudioStage orc (st₁, calls, res)).1.midiRouted = st₁.midiRouted ∧
    (st₁.audioRouted = true →
      (noteAudioStage orc (st₁, calls, res)).1.audioRouted = true) := by
  cases res with
  | error e => exact ⟨rfl, fun h => h⟩
  | ok u =>
    simp only [noteAudioStage]
    by_cases ha : st₁.audioRouted = true
    · rw [if_neg (by simp [ha])]
      refine ⟨?_, fun _ => ?_⟩
      · show (noteSendFinish orc st₁).1.midiRouted = st₁.midiRouted
        rw [noteSendFinish_state]
      · show (noteSendFinish orc st₁).1.audioRouted = true
        rw [noteSendFinish_state]
        exact ha
    · have hf : st₁.audioRouted = false := by
        revert ha
        cases st₁.audioRouted <;> simp
      rw [if_pos (by simp [hf])]
      rcases hE : ensureAudioRouting orc.audioRouting st₁ with ⟨st₂, calls₂, res₂⟩
      have hm := ensureAudioRouting_midi orc.audioRouting st₁
      rw [hE] at hm
      cases res₂ with
      | error e => exact ⟨hm, fun h => absurd h ha⟩
      | ok u2 =>
        refine ⟨?_, fun h => absurd h ha⟩
        show (noteSendFinish orc st₂).1.midiRouted = st₁.midiRouted
        rw [noteSendFinish_state]
        exact hm

theorem sendMidiNote_flags (orc : NoteOracle) (st : BackendState) :
    (st.midiRouted = true → (sendMidiNote orc st).1.midiRouted = true) ∧
    (st.audioRouted = true → (sendMidiNote orc st).1.audioRouted = true) := by
  unfold sendMidiNote
  split
  · exact ⟨fun h => h, fun h => h⟩
  · split
    · exact ⟨fun h => h, fun h => h⟩
    · constructor
      · intro h
        rw [if_neg (by simp [h])]
        rw [(noteAudioStage_flags orc st [] (.ok ())).1]
        exact h
      · intro h
        by_cases hm : st.midiRouted = true
        · rw [if_neg (by simp [hm])]
          exact (noteAudioStage_flags orc st [] (.ok ())).2 h
        · have hf : st.midiRouted = false := by
            revert hm
            cases st.midiRouted <;> simp
          rw [if_pos (by simp [hf])]
          rcases hE : ensureMidiRouting orc.midiRouting st with ⟨st₁, calls₁, res₁⟩
          have haud := ensureMidiRouting_audio orc.midiRouting st
          rw [hE] at haud
          exact (noteAudioStage_flags orc st₁ calls₁ res₁).2 (by rw [haud]; exact h)

theorem noteOn_flags (orc : NoteOracle) (st : BackendState) (note : Int) :
    (st.midiRouted = true → (noteOn orc st note).1.midiRouted = true) ∧
    (st.audioRouted = true → (noteOn orc st note).1.audioRouted = true) :=
  sendMidiNote_flags orc (cancelTimer note st)

theorem noteOff_flags (orc : NoteOracle) (st : BackendState) (note : Int) :
    (st.midiRouted = true → (noteOff orc st note).1.midiRouted = true) ∧
    (st.audioRouted = true → (noteOff orc st note).1.audioRouted = true) := by
  unfold noteOff
  rcases hr : sendMidiNote orc (cancelTimer note st) with ⟨st', r⟩
  have hf := sendMidiNote_flags orc (cancelTimer note st)
  rw [hr] at hf
  match r with
  | .ok u => exact hf
  | .error (.carlaHost m) => exact hf
  | .error .fileNotFound => exact hf
  | .error .other => exact hf

theorem setParameter_flags (orc : SetParamOracle) (st : BackendState)
    (ident : ParamIdent) (v : ℚ) :
    (setParameter orc st ident v).1.midiRouted = st.midiRouted ∧
    (setParameter orc st ident v).1.audioRouted = st.audioRouted := by
  unfold setParameter
  split
  · exact ⟨rfl, rfl⟩
  · cases hres : resolveParameterIdentifier st.parameters ident with
    | error e => simp [hres]
    | ok pid =>
      cases hsv : orc.setValueResult with
      | err => simp [hres, hsv]
      | ok u =>
        cases hpi : orc.pluginInfoResult with
        | err => simp [hres, hsv, hpi]
        | ok u2 => simp [hres, hsv, hpi]

/-- C4 (amended): the routed flags are sticky across the non-lifecycle public
operations — `set_parameter` leaves both flags exactly unchanged, `note_on`
and `note_off` never clear a set flag, and a routing pass invoked with its
flag already set returns the state untouched.  (Only `unload()`,
`load_plugin()` — which resets both flags at the start of each new session —
and `close()`, which performs an unload, transition a set flag back to
false.) -/
theorem c4_routed_flags_sticky (orcN : NoteOracle) (orcS : SetParamOracle)
    (orcR : RoutingOracle) (st : BackendState) (ident : ParamIdent) (v : ℚ)
    (note : Int) :
    ((setParameter orcS st ident v).1.midiRouted = st.midiRouted ∧
     (setParameter orcS st ident v).1.audioRouted = st.audioRouted) ∧
    (st.midiRouted = true →
      (noteOn orcN st note).1.midiRouted = true ∧
      (noteOff orcN st note).1.midiRouted = true ∧
      ensureMidiRouting orcR st = (st, [], .ok ())) ∧
    (st.audioRouted = true →
      (noteOn orcN st note).1.audioRouted = true ∧
      (noteOff orcN st note).1.audioRouted = true ∧
      ensureAudioRouting orcR st = (st, [], .ok ())) :=
  ⟨setParameter_flags orcS st ident v,
   fun h => ⟨(noteOn_flags orcN st note).1 h, (noteOff_flags orcN st note).1 h,
     ensureMidiRouting_skip orcR st h⟩,
   fun h => ⟨(noteOn_flags orcN st note).2 h, (noteOff_flags orcN st note).2 h,
     ensureAudioRouting_skip orcR st h⟩⟩

/-- C4 counterexample to the claim as stated: a subsequent successful
`load_plugin` transitions both routed flags from true back to false when the
new session's auto-routing finds nothing to connect. -/
theorem c4_counterexample :
    routedLoadedState.audioRouted = true ∧
    routedLoadedState.midiRouted = true ∧
    (loadPlugin (loadOracleParams [sampleParam 0 "Gain"]) routedLoadedState []).2 =
      .ok [sampleParam 0 "Gain"] ∧
    (loadPlugin (loadOracleParams [sampleParam 0 "Gain"]) routedLoadedState
      []).1.audioRouted = false ∧
    (loadPlugin (loadOracleParams [sampleParam 0 "Gain"]) routedLoadedState
      []).1.midiRouted = false := by decide

/-- C4 witness: the stickiness theorem applied to a routed session and a
note-on/note-off/set-parameter round. -/
theorem c4_routed_flags_sticky_witness :
    routedLoadedState.midiRouted = true ∧
    routedLoadedState.audioRouted = true ∧
    (noteOn ⟨routingOrcEmpty, routingOrcEmpty, .ok ()⟩ routedLoadedState
      60).1.midiRouted = true ∧
    (noteOff ⟨routingOrcEmpty, routingOrcEmpty, .ok ()⟩ routedLoadedState
      60).1.audioRouted = true ∧
    (setParameter ⟨.ok (), .ok ()⟩ routedLoadedState (.int 0) 1).1.midiRouted =
      routedLoadedState.midiRouted :=
  ⟨rfl, rfl,
   ((c4_routed_flags_sticky ⟨routingOrcEmpty, routingOrcEmpty, .ok ()⟩
      ⟨.ok (), .ok ()⟩ routingOrcEmpty routedLoadedState (.int 0) 1 60).2.1 rfl).1,
   (((c4_routed_flags_sticky ⟨routingOrcEmpty, routingOrcEmpty, .ok ()⟩
      ⟨.ok (), .ok ()⟩ routingOrcEmpty routedLoadedState (.int 0) 1 60).2.2 rfl).2).1,
   ((c4_routed_flags_sticky ⟨routingOrcEmpty, routingOrcEmpty, .ok ()⟩
      ⟨.ok (), .ok ()⟩ routingOrcEmpty routedLoadedState (.int 0) 1 60).1).1⟩

end AmbianceCarla
